import Mathlib

/-!
Verification development for the Groww_Play repository: a shallow embedding
of the credential-resolution, trading-gate, and data-massaging logic of the
four entry points (`groww_auth.py`, `groww_cli.py`, `groww_gradio.py`,
`groww_smoketest.py`), together with theorems settling the specification
claims about them.

Modelling conventions:
* Python strings are Lean `String`; `str.strip()`, `str.lower()`,
  `str.upper()` are the character-list helpers `pyStrip`, `pyLower`,
  `pyUpper` (ASCII, which covers the config keys and symbols the code
  handles).
* JSON-like Python data (dicts, lists, scalars) is the inductive `JVal`;
  numbers are modelled as rationals.
* `None` is `Option.none` (for optional strings) or `JVal.null`.
* External library behaviour that the repository merely calls is a
  parameter of the model: `totpNow` stands for `pyotp.TOTP(s).now()`
  (`none` = the `binascii.Error`/`ValueError` it raises on a bad Base32
  secret), `strToFloat` for Python's `float()` on strings, `jsonParse`
  for `json.loads`, and SDK calls are `Except`/`JVal` parameters.
* Code that raises `SystemExit`/returns early is modelled with `Except`
  or explicit outcome inductives; printed notes are collected in lists.
-/

namespace Groww

/-- Python `str.strip()` (whitespace trim), implemented on the character
list so that it reduces in the kernel. -/
def pyStrip (s : String) : String :=
  ⟨((s.data.dropWhile Char.isWhitespace).reverse.dropWhile
      Char.isWhitespace).reverse⟩

/-- Python `str.lower()` (ASCII). -/
def pyLower (s : String) : String := ⟨s.data.map Char.toLower⟩

/-- Python `str.upper()` (ASCII). -/
def pyUpper (s : String) : String := ⟨s.data.map Char.toUpper⟩

/-- Python `not s` on a string (empty test). -/
def pyIsEmpty (s : String) : Bool := s.data.isEmpty

/-- Python `s.startswith(pre)`. -/
def pyStartsWith (s pre : String) : Bool := pre.data.isPrefixOf s.data

/-- JSON-like Python value: dicts, lists and scalars. Numbers are
modelled as rationals. -/
inductive JVal where
  | null : JVal
  | bool : Bool → JVal
  | num : ℚ → JVal
  | str : String → JVal
  | arr : List JVal → JVal
  | obj : List (String × JVal) → JVal

/-- Python `value is None`. -/
def JVal.isNull : JVal → Bool
  | .null => true
  | _ => false

/-- Python `isinstance(value, dict)`. -/
def JVal.isObj : JVal → Bool
  | .obj _ => true
  | _ => false

/-- Python `isinstance(value, list)`. -/
def JVal.isArr : JVal → Bool
  | .arr _ => true
  | _ => false

/-- Python truthiness of a JSON-like value: `None`, `False`, `0`, `""`,
`[]` and `\x7b\x7d` are falsy, everything else truthy. -/
def jTruthy : JVal → Bool
  | .null => false
  | .bool b => b
  | .num q => if q = 0 then false else true
  | .str s => !(pyIsEmpty s)
  | .arr xs => !xs.isEmpty
  | .obj fs => !fs.isEmpty

/-- Python `a or b` on JSON-like values. -/
def pyOr (a b : JVal) : JVal := if jTruthy a then a else b

/-- Python `candle.get(k)` on a dict (`JVal.null` when the key is missing
or the value is not a dict, matching `dict.get`'s `None` default). -/
def jGet (c : JVal) (k : String) : JVal :=
  match c with
  | .obj fs => ((fs.find? (fun kv => kv.1 == k)).map Prod.snd).getD .null
  | _ => .null

/-- Python `k in d` on a dict's field list. -/
def objHasKey (fs : List (String × JVal)) (k : String) : Bool :=
  fs.any (fun kv => kv.1 == k)

/-- The `_first(*values)` helper shared by all four entry points: returns
the first argument that is not `None` and whose stripped string form is
non-empty (returned stripped), else `None`. -/
def _first : List (Option String) → Option String
  | [] => none
  | none :: rest => _first rest
  | some v :: rest =>
      if pyIsEmpty (pyStrip v) then _first rest else some (pyStrip v)

/-- The `.secrets.toml` keys the entry points read. -/
structure Cfg where
  api_key : Option String
  secret : Option String
  approval_api_key : Option String
  approval_secret : Option String
  totp_token : Option String
  totp : Option String
  totp_secret : Option String

/-- The empty config (missing `.secrets.toml`, or `use_secrets` off). -/
def emptyCfg : Cfg := ⟨none, none, none, none, none, none, none⟩

/-- The environment variables the entry points read. -/
structure Env where
  GROWW_API_KEY : Option String
  GROWW_API_SECRET : Option String
  GROWW_APPROVAL_API_KEY : Option String
  GROWW_APPROVAL_SECRET : Option String
  GROWW_TOTP_TOKEN : Option String
  GROWW_TOTP : Option String
  GROWW_TOTP_SECRET : Option String

/-- The empty environment (no relevant variables set). -/
def emptyEnv : Env := ⟨none, none, none, none, none, none, none⟩

/-- The `--flow` choices shared by the entry points. -/
inductive Flow where
  | auto
  | approval
  | totp
deriving DecidableEq

/-- The `GrowwAPI.get_access_token` call an entry point ends up making,
with the credentials it passes. -/
inductive SdkAuthCall where
  | totpCall (api_key totp : String)
  | approvalCall (api_key secret : String)
deriving DecidableEq

/-! ## groww_auth.py -/

/-- Command-line arguments of `groww_auth.py`. -/
structure AuthArgs where
  flow : Flow
  totp : Option String
  totp_token : Option String
  print_token : Bool
  save_token : Bool

def note_api_key_as_totp_token : String :=
  "Note: using `api_key` from .secrets.toml as `totp_token` (rename it to `totp_token` to remove this message)."

def note_secret_as_totp_secret : String :=
  "Note: using `secret` from .secrets.toml as `totp_secret` (rename it to `totp_secret` to remove this message)."

def note_invalid_secret_fallback : String :=
  "Note: `totp_secret` looks invalid; falling back to approval flow. Fix `totp_secret` (Base32 from QR) or run with --flow totp --totp <6-digit>."

def note_totp_from_cfg : String :=
  "Note: using `totp` from .secrets.toml; it expires quickly, prefer `totp_secret` or --totp."

def invalidSecretMsgAuth : String :=
  "Invalid `totp_secret`: it must be the Base32 TOTP secret from the QR setup. If you don\x27t have that, remove/blank `totp_secret` and pass a 6-digit OTP using --totp."

def missingTotpTokenMsgAuth : String :=
  "Missing totp_token. Put it in .secrets.toml or set GROWW_TOTP_TOKEN."

def missingTotpMsgAuth : String :=
  "Missing totp/totp_secret. Put `totp_secret` in .secrets.toml (recommended) or set GROWW_TOTP_SECRET, or paste a one-time `totp` / set GROWW_TOTP."

def missingApprovalApiKeyMsg : String :=
  "Missing approval_api_key. Put it in .secrets.toml (recommended) or set GROWW_APPROVAL_API_KEY."

def missingApprovalSecretMsg : String :=
  "Missing approval_secret. Put it in .secrets.toml (recommended) or set GROWW_APPROVAL_SECRET."

/-- `_totp_now_from_secret` of `groww_auth.py` (and `groww_smoketest.py`):
wraps `pyotp.TOTP(s).now()` (the parameter `totpNow`, where `none` stands
for the `binascii.Error`/`ValueError` pyotp raises on a non-Base32
secret) and re-raises as a `ValueError` with a fixed message. -/
def _totp_now_from_secret (totpNow : String → Option String) (s : String) :
    Except String String :=
  match totpNow s with
  | some code => .ok code
  | none => .error invalidSecretMsgAuth

/-- The approval branch of `groww_auth.main` (lines 168-179): exit when a
credential is missing, otherwise call the approval-flow SDK endpoint.
The notes accumulated so far are passed through. -/
def growwAuthApproval (notes : List String)
    (approval_api_key approval_secret : Option String) :
    List String × Except String SdkAuthCall :=
  match approval_api_key with
  | none => (notes, .error missingApprovalApiKeyMsg)
  | some k =>
      match approval_secret with
      | none => (notes, .error missingApprovalSecretMsg)
      | some s => (notes, .ok (.approvalCall k s))

/-- The tail of the TOTP branch of `groww_auth.main` (lines 151-164):
fall back to the `totp` config key (with a note), exit when no code is
available, otherwise call the TOTP-flow SDK endpoint. -/
def growwAuthTotpFinish (notes : List String) (tok : String)
    (totp : Option String) (totp_from_cfg : Option String) :
    List String × Except String SdkAuthCall :=
  match totp with
  | some t => (notes, .ok (.totpCall tok t))
  | none =>
      match totp_from_cfg with
      | some t => (notes ++ [note_totp_from_cfg], .ok (.totpCall tok t))
      | none => (notes, .error missingTotpMsgAuth)

/-- The derivation block of `groww_auth.main` (lines 138-179): when no
one-time code is at hand yet, derive one from `totp_secret`; on a
derivation failure fall back to the approval flow (with a note) under
`--flow auto`, else exit; otherwise finish the TOTP flow. -/
def growwAuthDerive (flow : Flow) (totpNow : String → Option String)
    (tok : String) (notes : List String)
    (totp totp_secret totp_from_cfg : Option String)
    (approval_api_key approval_secret : Option String) :
    List String × Except String SdkAuthCall :=
  match totp with
  | some t => growwAuthTotpFinish notes tok (some t) totp_from_cfg
  | none =>
      match totp_secret with
      | some sec =>
          match totpNow sec with
          | some code =>
              growwAuthTotpFinish notes tok (some code) totp_from_cfg
          | none =>
              if flow == Flow.auto then
                growwAuthApproval (notes ++ [note_invalid_secret_fallback])
                  approval_api_key approval_secret
              else (notes, .error invalidSecretMsgAuth)
      | none => growwAuthTotpFinish notes tok none totp_from_cfg

/-- Credential resolution of `groww_auth.main` (lines 95-179): computes
the printed notes and either the `SystemExit` message or the SDK
auth call made. -/
def growwAuthResolve (a : AuthArgs) (cfg : Cfg) (env : Env)
    (totpNow : String → Option String) :
    List String × Except String SdkAuthCall :=
  let legacy_api_key := _first [cfg.api_key, env.GROWW_API_KEY]
  let legacy_secret := _first [cfg.secret, env.GROWW_API_SECRET]
  let approval_api_key :=
    _first [cfg.approval_api_key, legacy_api_key, env.GROWW_APPROVAL_API_KEY]
  let approval_secret :=
    _first [cfg.approval_secret, legacy_secret, env.GROWW_APPROVAL_SECRET]
  let totp_token := _first [a.totp_token, cfg.totp_token, env.GROWW_TOTP_TOKEN]
  let totp_from_cfg := _first [cfg.totp]
  let totp := _first [a.totp, _first [env.GROWW_TOTP]]
  let totp_secret := _first [cfg.totp_secret, env.GROWW_TOTP_SECRET]
  let use_totp := a.flow == Flow.totp ||
    (a.flow == Flow.auto && totp_token.isSome &&
      (totp.isSome || totp_secret.isSome))
  if use_totp then
    let tokenStep :=
      if totp_token.isNone && legacy_api_key.isSome then
        (legacy_api_key, [note_api_key_as_totp_token])
      else (totp_token, [])
    match tokenStep.1 with
    | none => (tokenStep.2, .error missingTotpTokenMsgAuth)
    | some tok =>
        let secretStep :=
          if totp.isNone && totp_secret.isNone && legacy_secret.isSome then
            (legacy_secret, tokenStep.2 ++ [note_secret_as_totp_secret])
          else (totp_secret, tokenStep.2)
        growwAuthDerive a.flow totpNow tok secretStep.2 totp secretStep.1
          totp_from_cfg approval_api_key approval_secret
  else
    growwAuthApproval [] approval_api_key approval_secret

/-- `_normalize_access_token` of `groww_auth.py`: a string is returned
as is; for a dict the first truthy of the `access_token`/`token`/
`accessToken`/`jwt` entries is returned stripped when it is a non-blank
string; otherwise `str(value).strip()` (the parameter `pyRepr` stands
for Python's `str()` on non-string values). -/
def _normalize_access_token (pyRepr : JVal → String) (value : JVal) : String :=
  match value with
  | .str s => s
  | .obj fs =>
      let candidate :=
        pyOr (jGet (.obj fs) "access_token")
          (pyOr (jGet (.obj fs) "token")
            (pyOr (jGet (.obj fs) "accessToken") (jGet (.obj fs) "jwt")))
      match candidate with
      | .str s => if pyIsEmpty (pyStrip s) then pyStrip (pyRepr (.obj fs)) else pyStrip s
      | _ => pyStrip (pyRepr (.obj fs))
  | v => pyStrip (pyRepr v)

def emptyTokenMsg : String :=
  "Got an empty access token back from the API; double-check your credentials and approvals."

/-- Outcome of a full `groww_auth.main` run: the notes printed, the
`SystemExit` message or the access token obtained, and the list of
files written (path, contents). -/
structure AuthRun where
  notes : List String
  outcome : Except String String
  writes : List (String × String)

/-- Full `groww_auth.main` (lines 95-198): resolve credentials, make the
SDK call (the parameter `sdk` stands for `GrowwAPI.get_access_token`),
normalize the token, exit on an empty token, and write `.access_token`
(stripped token plus a newline) exactly when `--save-token` is set. -/
def growwAuthMain (a : AuthArgs) (cfg : Cfg) (env : Env)
    (totpNow : String → Option String) (sdk : SdkAuthCall → JVal)
    (pyRepr : JVal → String) : AuthRun :=
  match growwAuthResolve a cfg env totpNow with
  | (notes, .error m) => ⟨notes, .error m, []⟩
  | (notes, .ok call) =>
      let access_token := _normalize_access_token pyRepr (sdk call)
      if pyIsEmpty access_token then ⟨notes, .error emptyTokenMsg, []⟩
      else
        ⟨notes, .ok access_token,
          if a.save_token then [(".access_token", pyStrip access_token ++ "\n")]
          else []⟩

/-! ## groww_smoketest.py -/

def missingTotpTokenMsgSmoke : String :=
  "Missing totp_token. Add it to .secrets.toml or set GROWW_TOTP_TOKEN."

def missingTotpMsgSmoke : String :=
  "Missing totp/totp_secret. Add totp_secret to .secrets.toml, or pass --totp, or set GROWW_TOTP."

def missingApprovalMsgSmoke : String :=
  "Missing approval credentials. Add approval_api_key + approval_secret to .secrets.toml (or api_key + secret), or set GROWW_APPROVAL_API_KEY/GROWW_APPROVAL_SECRET."

/-- The approval branch of `groww_smoketest._get_access_token`
(lines 118-124): one combined missing-credentials exit. -/
def growwSmokeApproval (notes : List String)
    (approval_api_key approval_secret : Option String) :
    List String × Except String SdkAuthCall :=
  match approval_api_key, approval_secret with
  | some k, some s => (notes, .ok (.approvalCall k s))
  | _, _ => (notes, .error missingApprovalMsgSmoke)

/-- The tail of the TOTP branch of `groww_smoketest._get_access_token`
(lines 105-114), identical in structure to the authenticator's. -/
def growwSmokeTotpFinish (notes : List String) (tok : String)
    (totp : Option String) (totp_from_cfg : Option String) :
    List String × Except String SdkAuthCall :=
  match totp with
  | some t => (notes, .ok (.totpCall tok t))
  | none =>
      match totp_from_cfg with
      | some t => (notes ++ [note_totp_from_cfg], .ok (.totpCall tok t))
      | none => (notes, .error missingTotpMsgSmoke)

/-- The derivation block of `groww_smoketest._get_access_token`
(lines 92-124), identical in structure to the authenticator's. -/
def growwSmokeDerive (flow : Flow) (totpNow : String → Option String)
    (tok : String) (notes : List String)
    (totp totp_secret totp_from_cfg : Option String)
    (approval_api_key approval_secret : Option String) :
    List String × Except String SdkAuthCall :=
  match totp with
  | some t => growwSmokeTotpFinish notes tok (some t) totp_from_cfg
  | none =>
      match totp_secret with
      | some sec =>
          match totpNow sec with
          | some code =>
              growwSmokeTotpFinish notes tok (some code) totp_from_cfg
          | none =>
              if flow == Flow.auto then
                growwSmokeApproval (notes ++ [note_invalid_secret_fallback])
                  approval_api_key approval_secret
              else (notes, .error invalidSecretMsgAuth)
      | none => growwSmokeTotpFinish notes tok none totp_from_cfg

/-- Credential resolution of `groww_smoketest._get_access_token`
(lines 50-124). `--totp-token` is folded into `env.GROWW_TOTP_TOKEN`
(main sets that variable from the flag before resolving). -/
def growwSmokeResolve (flow : Flow) (totp_override : Option String)
    (cfg : Cfg) (env : Env) (totpNow : String → Option String) :
    List String × Except String SdkAuthCall :=
  let legacy_api_key := _first [cfg.api_key, env.GROWW_API_KEY]
  let legacy_secret := _first [cfg.secret, env.GROWW_API_SECRET]
  let approval_api_key :=
    _first [cfg.approval_api_key, legacy_api_key, env.GROWW_APPROVAL_API_KEY]
  let approval_secret :=
    _first [cfg.approval_secret, legacy_secret, env.GROWW_APPROVAL_SECRET]
  let totp_token := _first [cfg.totp_token, env.GROWW_TOTP_TOKEN]
  let totp_from_cfg := _first [cfg.totp]
  let totp := _first [totp_override, _first [env.GROWW_TOTP]]
  let totp_secret := _first [cfg.totp_secret, env.GROWW_TOTP_SECRET]
  let use_totp := flow == Flow.totp ||
    (flow == Flow.auto && totp_token.isSome &&
      (totp.isSome || totp_secret.isSome))
  if use_totp then
    let tokenStep :=
      if totp_token.isNone && legacy_api_key.isSome then
        (legacy_api_key, [note_api_key_as_totp_token])
      else (totp_token, [])
    match tokenStep.1 with
    | none => (tokenStep.2, .error missingTotpTokenMsgSmoke)
    | some tok =>
        let secretStep :=
          if totp.isNone && totp_secret.isNone && legacy_secret.isSome then
            (legacy_secret, tokenStep.2 ++ [note_secret_as_totp_secret])
          else (totp_secret, tokenStep.2)
        growwSmokeDerive flow totpNow tok secretStep.2 totp secretStep.1
          totp_from_cfg approval_api_key approval_secret
  else
    growwSmokeApproval [] approval_api_key approval_secret

/-! ## groww_cli.py: credential resolution -/

/-- Command-line overrides of `groww_cli.py` relevant to auth. -/
structure CliArgs where
  flow : Flow
  approval_api_key : Option String
  approval_secret : Option String
  totp_token : Option String
  totp : Option String

/-- A flow chosen interactively in `_choose_flow`'s input loop (the loop
only ever returns one of these two). -/
inductive ChosenFlow where
  | approval
  | totp
deriving DecidableEq

/-- Results the user would type at the interactive prompts of
`groww_cli._get_access_token` (`_choose_flow` and the `getpass` calls). -/
structure CliPrompts where
  chooseFlow : ChosenFlow
  approval_api_key : String
  approval_secret : String
  totp_token : String
  otp : String

def cliInvalidSecretMsg : String :=
  "Invalid TOTP secret: it must be Base32 from the QR setup. If you don\x27t have it, paste the 6-digit OTP when prompted."

/-- Outcome of `groww_cli._get_access_token`: the SDK call made, or the
`SystemExit` raised. -/
inductive CliTokenOutcome where
  | approvalCall (api_key secret : String)
  | totpCall (api_key totp : String)
  | exit (msg : String)
deriving DecidableEq

/-- `_choose_flow` of `groww_cli.py`: auto-picks approval, then totp,
when available; otherwise the interactive loop's answer. -/
def _choose_flow (available_approval available_totp : Bool)
    (prompted : ChosenFlow) : Flow :=
  if available_approval then Flow.approval
  else if available_totp then Flow.totp
  else match prompted with
    | .approval => Flow.approval
    | .totp => Flow.totp

/-- Credential resolution of `groww_cli._get_access_token`
(lines 203-251), with `getpass` prompts supplied through `p`. -/
def growwCliGetAccessToken (a : CliArgs) (cfg : Cfg) (env : Env)
    (p : CliPrompts) (totpNow : String → Option String) : CliTokenOutcome :=
  let approval_api_key :=
    _first [a.approval_api_key, cfg.approval_api_key, cfg.api_key,
      env.GROWW_APPROVAL_API_KEY, env.GROWW_API_KEY]
  let approval_secret :=
    _first [a.approval_secret, cfg.approval_secret, cfg.secret,
      env.GROWW_APPROVAL_SECRET, env.GROWW_API_SECRET]
  let totp_token := _first [a.totp_token, cfg.totp_token, env.GROWW_TOTP_TOKEN]
  let totp_secret := _first [cfg.totp_secret, env.GROWW_TOTP_SECRET]
  let totp := _first [a.totp, env.GROWW_TOTP]
  let available_approval := approval_api_key.isSome && approval_secret.isSome
  let available_totp :=
    totp_token.isSome && (totp.isSome || totp_secret.isSome)
  let flow :=
    if a.flow == Flow.auto then
      _choose_flow available_approval available_totp p.chooseFlow
    else a.flow
  if flow == Flow.approval then
    .approvalCall (approval_api_key.getD p.approval_api_key)
      (approval_secret.getD p.approval_secret)
  else
    let tok := totp_token.getD p.totp_token
    match totp with
    | some t => .totpCall tok t
    | none =>
        match totp_secret with
        | some sec =>
            match totpNow sec with
            | some code =>
                .totpCall tok (if pyIsEmpty code then p.otp else code)
            | none => .exit cliInvalidSecretMsg
        | none => .totpCall tok p.otp

/-! ## groww_gradio.py: connect -/

/-- The web form inputs of `groww_gradio.connect`. -/
structure ConnectForm where
  flow : Flow
  use_secrets : Bool
  approval_api_key : String
  approval_secret : String
  totp_token : String
  totp_secret : String
  totp : String

def gradioInvalidSecretMsg : String :=
  "Invalid TOTP secret: it must be Base32 from the QR setup. If you don\x27t have it, paste the 6-digit OTP manually."

/-- What `groww_gradio.connect` does up to (and including) choosing the
SDK auth call: a user-facing failure message, or the call made. -/
inductive ConnectOutcome where
  | fail (msg : String)
  | approvalCall (api_key secret : String)
  | totpCall (api_key totp : String)
deriving DecidableEq

/-- Credential resolution of `groww_gradio.connect` (lines 146-184): form
values override `.secrets.toml` values (when `use_secrets` is on), auto
picks approval when both approval credentials resolve, and the
`ValueError` of `_totp_now_from_secret` is caught as an auth error. -/
def connectResolve (form : ConnectForm) (cfg0 : Cfg)
    (totpNow : String → Option String) : ConnectOutcome :=
  let cfg := if form.use_secrets then cfg0 else emptyCfg
  let approval_api_key :=
    _first [some form.approval_api_key, cfg.approval_api_key, cfg.api_key]
  let approval_secret :=
    _first [some form.approval_secret, cfg.approval_secret, cfg.secret]
  let totp_token := _first [some form.totp_token, cfg.totp_token]
  let totp_secret := _first [some form.totp_secret, cfg.totp_secret]
  let totp := _first [some form.totp, cfg.totp]
  let flow :=
    if form.flow == Flow.auto then
      if approval_api_key.isSome && approval_secret.isSome then Flow.approval
      else Flow.totp
    else form.flow
  if flow == Flow.approval then
    match approval_api_key, approval_secret with
    | some k, some s => .approvalCall k s
    | _, _ => .fail "Missing approval api_key/secret."
  else
    match totp_token with
    | none => .fail "Missing totp_token."
    | some tok =>
        match totp with
        | some t => .totpCall tok t
        | none =>
            match totp_secret with
            | none => .fail "Missing totp or totp_secret."
            | some sec =>
                match totpNow sec with
                | some code => .totpCall tok code
                | none => .fail ("Auth error: " ++ gradioInvalidSecretMsg)

/-! ## Trading gates (groww_cli._confirm_if_trading,
groww_gradio._require_no_trading) -/

/-- The six trading method names gated in both the CLI and the web UI. -/
def trading_methods : List String :=
  ["place_order", "modify_order", "cancel_order",
   "create_smart_order", "modify_smart_order", "cancel_smart_order"]

/-- Result of `groww_cli._confirm_if_trading`: for non-trading methods no
confirmation is requested; for trading methods the typed input decides. -/
inductive ConfirmResult where
  | notPrompted
  | prompted
  | abort
deriving DecidableEq

/-- `groww_cli._confirm_if_trading` (lines 78-90): prompt only for the
six trading methods; proceed only when the stripped input is exactly
"PLACE", else `SystemExit("Aborted.")`. -/
def _confirm_if_trading (method_name : String) (typed : String) :
    ConfirmResult :=
  if trading_methods.contains method_name then
    if pyStrip typed == "PLACE" then .prompted else .abort
  else .notPrompted

def tradingBlockedMsg : String :=
  "Trading action blocked. Enable \x27Allow trading actions\x27 to proceed."

/-- `groww_gradio._require_no_trading` (lines 59-69): raise a
`ValueError` for the six trading methods unless the flag is on. -/
def _require_no_trading (method_name : String) (allow_trading : Bool) :
    Except String Unit :=
  if trading_methods.contains method_name && !allow_trading then
    .error tradingBlockedMsg
  else .ok ()

/-- `groww_cli._parse_json` (lines 69-75): missing/empty input gives the
default; a parse failure (the parameter `jsonParse` standing for
`json.loads`) is a `SystemExit` whose message starts with
"Invalid JSON:". -/
def _parse_json (jsonParse : String → Except String JVal)
    (value : Option String) (dflt : JVal) : Except String JVal :=
  match value with
  | none => .ok dflt
  | some s =>
      if pyIsEmpty s then .ok dflt
      else
        match jsonParse s with
        | .ok v => .ok v
        | .error m => .error ("Invalid JSON: " ++ m)

/-- Outcome of the `--call` branch of `groww_cli.main`: a `SystemExit`,
or the SDK method invocation it performs. -/
inductive CliCallResult where
  | exit (msg : String)
  | sdkCall (method : String) (args kwargs : JVal)

/-- The `--call` branch of `groww_cli.main` (lines 331-350): unknown or
non-callable methods exit; the trading confirmation runs before the JSON
arguments are even parsed; then the args/kwargs shape checks; then the
SDK method is invoked. `hasMethod`/`callableMethod` stand for
`hasattr`/`callable` on the `GrowwAPI` client. -/
def cliCall (hasMethod callableMethod : String → Bool)
    (jsonParse : String → Except String JVal) (callArg : String)
    (typed : String) (argsOpt kwargsOpt : Option String) : CliCallResult :=
  let method_name := pyStrip callArg
  if pyStartsWith method_name "_" || !hasMethod method_name then
    .exit ("Unknown method: " ++ method_name)
  else if !callableMethod method_name then
    .exit ("Attribute is not callable: " ++ method_name)
  else
    match _confirm_if_trading method_name typed with
    | .abort => .exit "Aborted."
    | _ =>
        match _parse_json jsonParse argsOpt (.arr []) with
        | .error m => .exit m
        | .ok a =>
            match _parse_json jsonParse kwargsOpt (.obj []) with
            | .error m => .exit m
            | .ok kw =>
                if !a.isArr then .exit "--args must be a JSON array"
                else if !kw.isObj then .exit "--kwargs must be a JSON object"
                else .sdkCall method_name a kw

/-! ## groww_gradio.py: handlers -/

/-- The error dict `\x7b"error": msg\x7d` the web handlers return. -/
def errDict (msg : String) : JVal := .obj [("error", .str msg)]

/-- Python `isinstance(result, dict) and "error" in result`. -/
def hasErrorKey : JVal → Bool
  | .obj fs => objHasKey fs "error"
  | _ => false

/-- `groww_gradio.get_quote` (lines 194-206). The Bool records whether
the SDK was invoked; `sdk` stands for `GrowwAPI(token).get_quote(...)`,
with `.error` its raised exception message. -/
def get_quote (token : String) (sdk : Except String JVal) : Bool × JVal :=
  if pyIsEmpty token then (false, errDict "Not connected")
  else
    match sdk with
    | .ok v => (true, v)
    | .error e => (true, errDict e)

/-! ### _prune_nulls -/

mutual
/-- `groww_gradio._prune_nulls` (lines 97-107): drop `None` dict entries
and `None` list items at every depth, recursing into the rest. -/
def _prune_nulls : JVal → JVal
  | .obj fs => .obj (pruneFields fs)
  | .arr xs => .arr (pruneItems xs)
  | v => v

/-- The dict comprehension of `_prune_nulls`. -/
def pruneFields : List (String × JVal) → List (String × JVal)
  | [] => []
  | (k, v) :: rest =>
      if v.isNull then pruneFields rest
      else (k, _prune_nulls v) :: pruneFields rest

/-- The list comprehension of `_prune_nulls`. -/
def pruneItems : List JVal → List JVal
  | [] => []
  | v :: rest =>
      if v.isNull then pruneItems rest
      else _prune_nulls v :: pruneItems rest
end

mutual
/-- `noNull v` holds when `v` contains no `null` at any nesting depth. -/
def noNull : JVal → Bool
  | .null => false
  | .obj fs => noNullFields fs
  | .arr xs => noNullItems xs
  | _ => true

def noNullFields : List (String × JVal) → Bool
  | [] => true
  | (_, v) :: rest => noNull v && noNullFields rest

def noNullItems : List JVal → Bool
  | [] => true
  | v :: rest => noNull v && noNullItems rest
end

/-- `groww_gradio.get_quote_clean` (lines 209-213): prune exactly the
successful quote results, i.e. dict results without an "error" key. -/
def get_quote_clean (token : String) (sdk : Except String JVal) : JVal :=
  let result := (get_quote token sdk).2
  if result.isObj && !hasErrorKey result then _prune_nulls result
  else result

/-! ### Candles -/

/-- The key scan of `groww_gradio._extract_candles` (lines 779-782). -/
def extractFromKeys (data : JVal) : List String → Option (List JVal)
  | [] => none
  | k :: rest =>
      match jGet data k with
      | .arr xs => some xs
      | _ => extractFromKeys data rest

/-- `groww_gradio._extract_candles` (lines 777-785): the first
list-valued entry under the known keys of a dict, a list itself, else
no candles. -/
def _extract_candles (data : JVal) : List JVal :=
  match data with
  | .obj _ =>
      (extractFromKeys data
        ["candles", "data", "candle_data", "historical_data", "result"]).getD []
  | .arr xs => xs
  | _ => []

/-- A row of the candle table built by `_candles_to_rows`. The
timestamp is the result of `_format_ts` (the parameter `fmt` below). -/
structure Row where
  timestamp : Option String
  open_ : JVal
  high : JVal
  low : JVal
  close : JVal
  volume : JVal

/-- The body of `_candles_to_rows`'s loop (lines 807-828): the row built
from one candle, `none` when the candle is skipped. Dict candles read
the `timestamp/time/t/date`, `open/o`, `high/h`, `low/l`, `close/c`,
`volume/v` keys through Python's `or`; sequence candles read positions
0-5 (`None` past the end). -/
def candleRow (fmt : JVal → Option String) (c : JVal) : Option Row :=
  match c with
  | .obj _ =>
      some ⟨fmt (pyOr (jGet c "timestamp")
              (pyOr (jGet c "time") (pyOr (jGet c "t") (jGet c "date")))),
        pyOr (jGet c "open") (jGet c "o"),
        pyOr (jGet c "high") (jGet c "h"),
        pyOr (jGet c "low") (jGet c "l"),
        pyOr (jGet c "close") (jGet c "c"),
        pyOr (jGet c "volume") (jGet c "v")⟩
  | .arr xs =>
      some ⟨fmt ((xs.get? 0).getD .null),
        (xs.get? 1).getD .null,
        (xs.get? 2).getD .null,
        (xs.get? 3).getD .null,
        (xs.get? 4).getD .null,
        (xs.get? 5).getD .null⟩
  | _ => none

/-- `groww_gradio._candles_to_rows` (lines 804-830), appending one row
per non-skipped extracted candle, in order. -/
def _candles_to_rows (fmt : JVal → Option String) (data : JVal) : List Row :=
  (_extract_candles data).foldr
    (fun c acc =>
      match candleRow fmt c with
      | some r => r :: acc
      | none => acc) []

/-- Python `float()` on a JSON-like value: numbers and booleans convert,
strings go through the parameter `strToFloat` (Python's `float(str)`,
`none` = `ValueError`), everything else is a `TypeError` (`none`). -/
def pyFloat (strToFloat : String → Option ℚ) : JVal → Option ℚ
  | .num q => some q
  | .bool b => some (if b then 1 else 0)
  | .str s => strToFloat s
  | _ => none

/-- `groww_gradio._parse_candle_close` (lines 832-845): for a dict, the
first of the keys `close`, `c` that is present decides (a failed
`float()` returns `None` without trying the next key); for a sequence of
length at least 5, position 4; else `None`. -/
def _parse_candle_close (strToFloat : String → Option ℚ) : JVal → Option ℚ
  | .obj fs =>
      if objHasKey fs "close" then pyFloat strToFloat (jGet (.obj fs) "close")
      else if objHasKey fs "c" then pyFloat strToFloat (jGet (.obj fs) "c")
      else none
  | .arr xs =>
      if xs.length ≥ 5 then pyFloat strToFloat ((xs.get? 4).getD .null)
      else none
  | _ => none

def notEnoughCandlesMsg : String :=
  "Not enough candle data to compute backtest summary."

/-- The message of Python's `ZeroDivisionError` on float division. -/
def divZeroMsg : String := "float division by zero"

/-- `groww_gradio.backtest_simple` (lines 848-883). The Bool records
whether the SDK was invoked; `sdk` stands for
`get_historical_candle_data`; numbers are rationals. The
`ZeroDivisionError` raised when the first parsed close is 0 is caught by
the handler's `except` and returned as an error dict. -/
def backtest_simple (strToFloat : String → Option ℚ) (token : String)
    (sdk : Except String JVal) : Bool × JVal :=
  if pyIsEmpty token then (false, errDict "Not connected")
  else
    match sdk with
    | .error e => (true, errDict e)
    | .ok data =>
        let closes :=
          (_extract_candles data).filterMap (_parse_candle_close strToFloat)
        if closes.length < 2 then (true, errDict notEnoughCandlesMsg)
        else
          let start_close := closes.headD 0
          let end_close := closes.getLastD 0
          if start_close = 0 then (true, errDict divZeroMsg)
          else
            (true, .obj
              [("count", .num (closes.length : ℚ)),
               ("start_close", .num start_close),
               ("end_close", .num end_close),
               ("return_pct", .num
                 (((end_close - start_close) / start_close) * 100))])

/-- `groww_gradio.call_method` (lines 485-509). The Bool records whether
the SDK method was invoked; `hasMethod`/`callableMethod` stand for
`hasattr`/`callable`, `jsonParse` for `json.loads` inside
`groww_gradio._parse_json` (whose `ValueError`, like the one from
`_require_no_trading`, is caught by the handler's `except` and returned
as an error dict), and `sdk` for the method invocation itself. -/
def call_method (hasMethod callableMethod : String → Bool)
    (jsonParse : String → Except String JVal) (sdk : Except String JVal)
    (token method_name args_json kwargs_json : String)
    (allow_trading : Bool) : Bool × JVal :=
  if pyIsEmpty token then (false, errDict "Not connected")
  else if pyIsEmpty (pyStrip method_name) then
    (false, errDict "Method name is required")
  else if !hasMethod method_name then
    (false, errDict ("Unknown method: " ++ method_name))
  else if !callableMethod method_name then
    (false, errDict ("Not callable: " ++ method_name))
  else
    match _require_no_trading method_name allow_trading with
    | .error m => (false, errDict m)
    | .ok _ =>
        match
          (if pyIsEmpty (pyStrip args_json) then .ok (.arr [])
           else
             match jsonParse args_json with
             | .ok v => Except.ok v
             | .error m => Except.error ("Invalid JSON: " ++ m)) with
        | .error m => (false, errDict m)
        | .ok a =>
            match
              (if pyIsEmpty (pyStrip kwargs_json) then .ok (.obj [])
               else
                 match jsonParse kwargs_json with
                 | .ok v => Except.ok v
                 | .error m => Except.error ("Invalid JSON: " ++ m)) with
            | .error m => (false, errDict m)
            | .ok kw =>
                if !a.isArr then (false, errDict "--args must be JSON array")
                else if !kw.isObj then
                  (false, errDict "--kwargs must be JSON object")
                else
                  match sdk with
                  | .ok v => (true, v)
                  | .error e => (true, errDict e)

/-! ## Instrument search

The pandas instrument dataframe is modelled as a column list plus rows
mapping column names to cell strings (`astype(str)` is implicit).
`str.contains` is modelled as literal (lower-cased) substring
containment, i.e. pandas' regex matching restricted to the literal
queries the tools are built for. `df.head(n)` keeps the first `n` rows
for `n ≥ 0` and drops the last `-n` rows for negative `n` (pandas
semantics). Indexing a missing filter column is a `KeyError`. -/

/-- The instrument dataframe. -/
structure Table where
  cols : List String
  rows : List (String → String)

/-- `df.head(n)`, including pandas' negative-`n` behaviour. -/
def pyHead (n : Int) (xs : List (String → String)) : List (String → String) :=
  if 0 ≤ n then xs.take n.toNat else xs.take (xs.length - (-n).toNat)

/-- Literal substring containment on character lists. Pandas'
`Series.str.contains(q, na=False)` does regex matching, so the search
models below take the per-cell predicate as an abstract parameter
`pdContains`; this definition is the concrete instantiation used for
witnesses and counterexamples, where the queries are metacharacter-free
and regex search coincides with substring containment. -/
def strContains (hay needle : String) : Bool :=
  (List.range (hay.data.length + 1)).any
    (fun i => needle.data.isPrefixOf (hay.data.drop i))

/-- One `filtered[filtered[col].str.upper() == value.upper()]` step. -/
def filterByCol (rows : List (String → String)) (col value : String) :
    List (String → String) :=
  rows.filter (fun r => pyUpper (r col) == pyUpper value)

/-- An optional, truthiness-guarded exchange/segment filter:
`if exchange: filtered = filtered[filtered["exchange"]...]`, raising a
`KeyError` when the column is absent. -/
def optFilterTruthy (cols : List String) (colName : String)
    (v : Option String) (rows : List (String → String)) :
    Except String (List (String → String)) :=
  match v with
  | none => .ok rows
  | some s =>
      if pyIsEmpty s then .ok rows
      else if cols.contains colName then .ok (filterByCol rows colName s)
      else .error ("KeyError: " ++ colName)

/-- The columns `groww_cli._search_instruments` searches. -/
def cliSearchCols : List String :=
  ["trading_symbol", "groww_symbol", "name", "isin", "exchange_token",
   "underlying_symbol"]

/-- The per-row OR of the per-column `.str.lower().str.contains(q)`
masks, over the searched columns present in the table. `pdContains`
stands for pandas' regex-based per-cell `str.contains` predicate. -/
def rowHitsQuery (pdContains : String → String → Bool)
    (present : List String) (q : String) (r : String → String) : Bool :=
  present.any (fun c => pdContains (pyLower (r c)) q)

/-- `groww_cli._search_instruments` (lines 133-168): empty stripped query
gives zero rows; exchange/segment filters; OR-mask over the searched
columns that exist (no column at all gives zero rows); `head(limit)`.
`pdContains` stands for pandas' `str.contains` cell predicate. -/
def _search_instruments (pdContains : String → String → Bool) (t : Table)
    (query : String) (exchange segment : Option String) (limit : Int) :
    Except String (List (String → String)) :=
  let q := pyLower (pyStrip query)
  if pyIsEmpty q then .ok []
  else
    match optFilterTruthy t.cols "exchange" exchange t.rows with
    | .error m => .error m
    | .ok rows1 =>
        match optFilterTruthy t.cols "segment" segment rows1 with
        | .error m => .error m
        | .ok rows2 =>
            let present := cliSearchCols.filter (fun c => t.cols.contains c)
            if present.isEmpty then .ok []
            else
              .ok (pyHead limit
                (rows2.filter (rowHitsQuery pdContains present q)))

/-- The display columns of `groww_gradio.search_instruments`. -/
def gradioDisplayCols : List String :=
  ["trading_symbol", "groww_symbol", "name", "isin", "exchange_token",
   "exchange", "segment", "instrument_type"]

/-- The columns `groww_gradio.search_instruments` searches. -/
def gradioSearchCols : List String :=
  ["trading_symbol", "groww_symbol", "name", "isin"]

/-- Result of `groww_gradio.search_instruments`: a user-facing message,
or the filtered dataframe view (display columns, rows). -/
inductive SearchOut where
  | msg (s : String)
  | table (cols : List String) (rows : List (String → String))

/-- `groww_gradio.search_instruments` (lines 683-726), with the cached
dataframe supplied as `df`; the `KeyError` of a missing filter column is
caught by the handler's `except` as an "Error: ..." message — note the
handler returns bare strings, never an error dict. `pdContains` stands
for pandas' `str.contains` cell predicate. -/
def search_instruments (pdContains : String → String → Bool)
    (token : String) (df : Table) (query exchange segment : String)
    (limit : Int) : SearchOut :=
  if pyIsEmpty token then .msg "Not connected"
  else
    let q := pyLower (pyStrip query)
    if pyIsEmpty q then .msg "Enter a search term."
    else
      match optFilterTruthy df.cols "exchange" (some exchange) df.rows with
      | .error e => .msg ("Error: " ++ e)
      | .ok rows1 =>
          match optFilterTruthy df.cols "segment" (some segment) rows1 with
          | .error e => .msg ("Error: " ++ e)
          | .ok rows2 =>
              let cols := gradioDisplayCols.filter (fun c => df.cols.contains c)
              let present :=
                gradioSearchCols.filter (fun c => df.cols.contains c)
              if present.isEmpty then .msg "No instruments found."
              else
                let view :=
                  pyHead limit
                    (rows2.filter (rowHitsQuery pdContains present q))
                if view.isEmpty then .msg "No instruments found."
                else .table cols view

/-! ## Spec-order credential resolution (refinement comparison) -/

/-- Modelled from the spec's words ("Credential precedence (observed
across entry points)"): the one-time TOTP code of the REPL/menu CLI
should be the first non-empty value of, in order: the explicit `--totp`
override (1), the code derived from the flow-specific secrets-file key
`totp_secret` (2), the legacy/generic config key `totp` (3), the
flow-specific environment variable `GROWW_TOTP` (4), and the
interactive prompt (5). This definition follows the spec's claimed
order, to be compared with `growwCliGetAccessToken`. -/
def specTotpPrecedenceCli (a : CliArgs) (cfg : Cfg) (env : Env)
    (p : CliPrompts) (totpNow : String → Option String) : String :=
  (((_first [a.totp]).orElse
      (fun _ =>
        match _first [cfg.totp_secret] with
        | some sec => totpNow sec
        | none => none)
    |>.orElse (fun _ => _first [cfg.totp])
    |>.orElse (fun _ => _first [env.GROWW_TOTP]))).getD p.otp

/-! ## Theorems -/

/-- Lower-casing preserves emptiness. -/
theorem pyIsEmpty_pyLower (s : String) :
    pyIsEmpty (pyLower s) = pyIsEmpty s := by
  cases h : s.data <;> simp [pyIsEmpty, pyLower, h]

/-- Whenever the TOTP tail of the authenticator makes a TOTP SDK call,
the api_key it passes is the `totp_token` it was given. -/
theorem growwAuthTotpFinish_key {notes : List String} {tok : String}
    {totp totp_from_cfg : Option String} {n : List String} {k t : String}
    (h : growwAuthTotpFinish notes tok totp totp_from_cfg =
      (n, .ok (.totpCall k t))) : k = tok := by
  unfold growwAuthTotpFinish at h
  rcases totp with _ | t'
  · rcases totp_from_cfg with _ | t''
    · simp at h
    · simp at h; exact h.2.1.symm
  · simp at h; exact h.2.1.symm

/-- The approval branch of the authenticator never makes a TOTP call. -/
theorem growwAuthApproval_not_totp {notes : List String}
    {ak as : Option String} {n : List String} {k t : String}
    (h : growwAuthApproval notes ak as = (n, .ok (.totpCall k t))) :
    False := by
  unfold growwAuthApproval at h
  rcases ak with _ | k' <;> rcases as with _ | s' <;> simp at h

/-- Same statement for the smoke test's TOTP tail. -/
theorem growwSmokeTotpFinish_key {notes : List String} {tok : String}
    {totp totp_from_cfg : Option String} {n : List String} {k t : String}
    (h : growwSmokeTotpFinish notes tok totp totp_from_cfg =
      (n, .ok (.totpCall k t))) : k = tok := by
  unfold growwSmokeTotpFinish at h
  rcases totp with _ | t'
  · rcases totp_from_cfg with _ | t''
    · simp at h
    · simp at h; exact h.2.1.symm
  · simp at h; exact h.2.1.symm

/-- The approval branch of the smoke test never makes a TOTP call. -/
theorem growwSmokeApproval_not_totp {notes : List String}
    {ak as : Option String} {n : List String} {k t : String}
    (h : growwSmokeApproval notes ak as = (n, .ok (.totpCall k t))) :
    False := by
  unfold growwSmokeApproval at h
  rcases ak with _ | k' <;> rcases as with _ | s' <;> simp at h

/-- Whenever the authenticator's derivation block makes a TOTP call, the
api_key it passes is the `totp_token` it was given. -/
theorem growwAuthDerive_key {flow : Flow} {f : String → Option String}
    {tok : String} {notes : List String}
    {totp ts tfc aak asec : Option String} {n : List String} {k t : String}
    (h : growwAuthDerive flow f tok notes totp ts tfc aak asec =
      (n, .ok (.totpCall k t))) : k = tok := by
  unfold growwAuthDerive at h
  split at h
  · exact growwAuthTotpFinish_key h
  · split at h
    · split at h
      · exact growwAuthTotpFinish_key h
      · split at h
        · exact (growwAuthApproval_not_totp h).elim
        · simp at h
    · exact growwAuthTotpFinish_key h

/-- Same statement for the smoke test's derivation block. -/
theorem growwSmokeDerive_key {flow : Flow} {f : String → Option String}
    {tok : String} {notes : List String}
    {totp ts tfc aak asec : Option String} {n : List String} {k t : String}
    (h : growwSmokeDerive flow f tok notes totp ts tfc aak asec =
      (n, .ok (.totpCall k t))) : k = tok := by
  unfold growwSmokeDerive at h
  split at h
  · exact growwSmokeTotpFinish_key h
  · split at h
    · split at h
      · exact growwSmokeTotpFinish_key h
      · split at h
        · exact (growwSmokeApproval_not_totp h).elim
        · simp at h
    · exact growwSmokeTotpFinish_key h

/-- The approval branches return the notes they were given unchanged. -/
theorem growwAuthApproval_notes (notes : List String)
    (ak as : Option String) : (growwAuthApproval notes ak as).1 = notes := by
  unfold growwAuthApproval
  rcases ak with _ | k <;> rcases as with _ | s <;> rfl

/-- Same statement for the smoke test's approval branch. -/
theorem growwSmokeApproval_notes (notes : List String)
    (ak as : Option String) : (growwSmokeApproval notes ak as).1 = notes := by
  unfold growwSmokeApproval
  rcases ak with _ | k <;> rcases as with _ | s <;> rfl

/-- The TOTP tail only ever appends to the notes it was given. -/
theorem growwAuthTotpFinish_notes_mono {x : String} {notes : List String}
    (tok : String) (totp totp_from_cfg : Option String) (h : x ∈ notes) :
    x ∈ (growwAuthTotpFinish notes tok totp totp_from_cfg).1 := by
  unfold growwAuthTotpFinish
  split
  · exact h
  · split
    · exact List.mem_append_left _ h
    · exact h

/-- Same statement for the smoke test's TOTP tail. -/
theorem growwSmokeTotpFinish_notes_mono {x : String} {notes : List String}
    (tok : String) (totp totp_from_cfg : Option String) (h : x ∈ notes) :
    x ∈ (growwSmokeTotpFinish notes tok totp totp_from_cfg).1 := by
  unfold growwSmokeTotpFinish
  split
  · exact h
  · split
    · exact List.mem_append_left _ h
    · exact h

/-- The derivation block only ever appends to the notes it was given. -/
theorem growwAuthDerive_notes_mono {x : String} {notes : List String}
    (flow : Flow) (f : String → Option String) (tok : String)
    (totp ts tfc aak asec : Option String) (h : x ∈ notes) :
    x ∈ (growwAuthDerive flow f tok notes totp ts tfc aak asec).1 := by
  unfold growwAuthDerive
  split
  · exact growwAuthTotpFinish_notes_mono _ _ _ h
  · split
    · split
      · exact growwAuthTotpFinish_notes_mono _ _ _ h
      · split
        · rw [growwAuthApproval_notes]
          exact List.mem_append_left _ h
        · exact h
    · exact growwAuthTotpFinish_notes_mono _ _ _ h

/-- Same statement for the smoke test's derivation block. -/
theorem growwSmokeDerive_notes_mono {x : String} {notes : List String}
    (flow : Flow) (f : String → Option String) (tok : String)
    (totp ts tfc aak asec : Option String) (h : x ∈ notes) :
    x ∈ (growwSmokeDerive flow f tok notes totp ts tfc aak asec).1 := by
  unfold growwSmokeDerive
  split
  · exact growwSmokeTotpFinish_notes_mono _ _ _ h
  · split
    · split
      · exact growwSmokeTotpFinish_notes_mono _ _ _ h
      · split
        · rw [growwSmokeApproval_notes]
          exact List.mem_append_left _ h
        · exact h
    · exact growwSmokeTotpFinish_notes_mono _ _ _ h

theorem growwAuthTotpFinish_notes_cases (notes : List String)
    (tok : String) (totp totp_from_cfg : Option String) :
    (growwAuthTotpFinish notes tok totp totp_from_cfg).1 = notes ∨
    (growwAuthTotpFinish notes tok totp totp_from_cfg).1 =
      notes ++ [note_totp_from_cfg] := by
  unfold growwAuthTotpFinish
  split
  · exact Or.inl rfl
  · split
    · exact Or.inr rfl
    · exact Or.inl rfl

theorem growwAuthDerive_notes_cases (flow : Flow)
    (f : String → Option String) (tok : String) (notes : List String)
    (totp ts tfc aak asec : Option String) :
    (growwAuthDerive flow f tok notes totp ts tfc aak asec).1 = notes ∨
    (growwAuthDerive flow f tok notes totp ts tfc aak asec).1 =
      notes ++ [note_totp_from_cfg] ∨
    (growwAuthDerive flow f tok notes totp ts tfc aak asec).1 =
      notes ++ [note_invalid_secret_fallback] := by
  unfold growwAuthDerive
  split
  · exact (growwAuthTotpFinish_notes_cases _ _ _ _).imp id Or.inl
  · split
    · split
      · exact (growwAuthTotpFinish_notes_cases _ _ _ _).imp id Or.inl
      · split
        · exact Or.inr (Or.inr (growwAuthApproval_notes _ _ _))
        · exact Or.inl rfl
    · exact (growwAuthTotpFinish_notes_cases _ _ _ _).imp id Or.inl

theorem growwAuthDerive_notes_mem {x : String} {flow : Flow}
    {f : String → Option String} {tok : String} {notes : List String}
    {totp ts tfc aak asec : Option String}
    (h : x ∈ (growwAuthDerive flow f tok notes totp ts tfc aak asec).1) :
    x ∈ notes ∨ x = note_totp_from_cfg ∨
      x = note_invalid_secret_fallback := by
  rcases growwAuthDerive_notes_cases flow f tok notes totp ts tfc aak asec
    with hc | hc | hc <;> rw [hc] at h
  · exact Or.inl h
  · rcases List.mem_append.mp h with h' | h'
    · exact Or.inl h'
    · right; left; simpa using h'
  · rcases List.mem_append.mp h with h' | h'
    · exact Or.inl h'
    · right; right; simpa using h'

theorem growwAuthResolve_notes_sub (a : AuthArgs) (cfg : Cfg) (env : Env)
    (f : String → Option String) :
    ∀ x ∈ (growwAuthResolve a cfg env f).1,
      (x = note_api_key_as_totp_token ∧ a.flow = Flow.totp ∧
        _first [a.totp_token, cfg.totp_token, env.GROWW_TOTP_TOKEN] = none ∧
        (_first [cfg.api_key, env.GROWW_API_KEY]).isSome = true) ∨
      (x = note_secret_as_totp_secret ∧ a.flow = Flow.totp ∧
        _first [a.totp, _first [env.GROWW_TOTP]] = none ∧
        _first [cfg.totp_secret, env.GROWW_TOTP_SECRET] = none ∧
        (_first [cfg.secret, env.GROWW_API_SECRET]).isSome = true) ∨
      x = note_totp_from_cfg ∨ x = note_invalid_secret_fallback := by
  intro x hx
  simp only [growwAuthResolve] at hx
  split at hx
  · rename_i huse
    by_cases hc1 : ((_first [a.totp_token, cfg.totp_token,
        env.GROWW_TOTP_TOKEN]).isNone &&
        (_first [cfg.api_key, env.GROWW_API_KEY]).isSome) = true
    · rw [if_pos hc1] at hx
      rw [Bool.and_eq_true] at hc1
      have htt : _first [a.totp_token, cfg.totp_token,
          env.GROWW_TOTP_TOKEN] = none :=
        Option.isNone_iff_eq_none.mp hc1.1
      have hfl : a.flow = Flow.totp := by
        rw [htt] at huse
        simpa using huse
      split at hx
      · simp at hx
        exact Or.inl ⟨hx, hfl, htt, hc1.2⟩
      · have hm := growwAuthDerive_notes_mem hx
        rcases hm with hm | hm | hm
        · by_cases hc2 : ((_first [a.totp,
              _first [env.GROWW_TOTP]]).isNone &&
              (_first [cfg.totp_secret, env.GROWW_TOTP_SECRET]).isNone &&
              (_first [cfg.secret, env.GROWW_API_SECRET]).isSome) = true
          · rw [if_pos hc2] at hm
            simp at hm
            rcases hm with hm | hm
            · exact Or.inl ⟨hm, hfl, htt, hc1.2⟩
            · rw [Bool.and_eq_true, Bool.and_eq_true] at hc2
              exact Or.inr (Or.inl ⟨hm, hfl,
                Option.isNone_iff_eq_none.mp hc2.1.1,
                Option.isNone_iff_eq_none.mp hc2.1.2, hc2.2⟩)
          · rw [if_neg hc2] at hm
            simp at hm
            exact Or.inl ⟨hm, hfl, htt, hc1.2⟩
        · exact Or.inr (Or.inr (Or.inl hm))
        · exact Or.inr (Or.inr (Or.inr hm))
    · rw [if_neg hc1] at hx
      split at hx
      · simp at hx
      · rename_i tok heq
        have hm := growwAuthDerive_notes_mem hx
        rcases hm with hm | hm | hm
        · by_cases hc2 : ((_first [a.totp,
              _first [env.GROWW_TOTP]]).isNone &&
              (_first [cfg.totp_secret, env.GROWW_TOTP_SECRET]).isNone &&
              (_first [cfg.secret, env.GROWW_API_SECRET]).isSome) = true
          · rw [if_pos hc2] at hm
            simp at hm
            rw [Bool.and_eq_true, Bool.and_eq_true] at hc2
            have htotp : _first [a.totp, _first [env.GROWW_TOTP]] = none :=
              Option.isNone_iff_eq_none.mp hc2.1.1
            have hts : _first [cfg.totp_secret, env.GROWW_TOTP_SECRET] =
                none := Option.isNone_iff_eq_none.mp hc2.1.2
            have hfl : a.flow = Flow.totp := by
              rw [htotp, hts] at huse
              simpa using huse
            exact Or.inr (Or.inl ⟨hm, hfl, htotp, hts, hc2.2⟩)
          · rw [if_neg hc2] at hm
            simp at hm
        · exact Or.inr (Or.inr (Or.inl hm))
        · exact Or.inr (Or.inr (Or.inr hm))
  · rw [growwAuthApproval_notes] at hx
    simp at hx

theorem growwSmokeTotpFinish_notes_cases (notes : List String)
    (tok : String) (totp totp_from_cfg : Option String) :
    (growwSmokeTotpFinish notes tok totp totp_from_cfg).1 = notes ∨
    (growwSmokeTotpFinish notes tok totp totp_from_cfg).1 =
      notes ++ [note_totp_from_cfg] := by
  unfold growwSmokeTotpFinish
  split
  · exact Or.inl rfl
  · split
    · exact Or.inr rfl
    · exact Or.inl rfl

theorem growwSmokeDerive_notes_cases (flow : Flow)
    (f : String → Option String) (tok : String) (notes : List String)
    (totp ts tfc aak asec : Option String) :
    (growwSmokeDerive flow f tok notes totp ts tfc aak asec).1 = notes ∨
    (growwSmokeDerive flow f tok notes totp ts tfc aak asec).1 =
      notes ++ [note_totp_from_cfg] ∨
    (growwSmokeDerive flow f tok notes totp ts tfc aak asec).1 =
      notes ++ [note_invalid_secret_fallback] := by
  unfold growwSmokeDerive
  split
  · exact (growwSmokeTotpFinish_notes_cases _ _ _ _).imp id Or.inl
  · split
    · split
      · exact (growwSmokeTotpFinish_notes_cases _ _ _ _).imp id Or.inl
      · split
        · exact Or.inr (Or.inr (growwSmokeApproval_notes _ _ _))
        · exact Or.inl rfl
    · exact (growwSmokeTotpFinish_notes_cases _ _ _ _).imp id Or.inl

theorem growwSmokeDerive_notes_mem {x : String} {flow : Flow}
    {f : String → Option String} {tok : String} {notes : List String}
    {totp ts tfc aak asec : Option String}
    (h : x ∈ (growwSmokeDerive flow f tok notes totp ts tfc aak asec).1) :
    x ∈ notes ∨ x = note_totp_from_cfg ∨
      x = note_invalid_secret_fallback := by
  rcases growwSmokeDerive_notes_cases flow f tok notes totp ts tfc aak asec
    with hc | hc | hc <;> rw [hc] at h
  · exact Or.inl h
  · rcases List.mem_append.mp h with h' | h'
    · exact Or.inl h'
    · right; left; simpa using h'
  · rcases List.mem_append.mp h with h' | h'
    · exact Or.inl h'
    · right; right; simpa using h'

theorem growwSmokeResolve_notes_sub (flow : Flow) (ov : Option String)
    (cfg : Cfg) (env : Env) (f : String → Option String) :
    ∀ x ∈ (growwSmokeResolve flow ov cfg env f).1,
      (x = note_api_key_as_totp_token ∧ flow = Flow.totp ∧
        _first [cfg.totp_token, env.GROWW_TOTP_TOKEN] = none ∧
        (_first [cfg.api_key, env.GROWW_API_KEY]).isSome = true) ∨
      (x = note_secret_as_totp_secret ∧ flow = Flow.totp ∧
        _first [ov, _first [env.GROWW_TOTP]] = none ∧
        _first [cfg.totp_secret, env.GROWW_TOTP_SECRET] = none ∧
        (_first [cfg.secret, env.GROWW_API_SECRET]).isSome = true) ∨
      x = note_totp_from_cfg ∨ x = note_invalid_secret_fallback := by
  intro x hx
  simp only [growwSmokeResolve] at hx
  split at hx
  · rename_i huse
    by_cases hc1 : ((_first [cfg.totp_token,
        env.GROWW_TOTP_TOKEN]).isNone &&
        (_first [cfg.api_key, env.GROWW_API_KEY]).isSome) = true
    · rw [if_pos hc1] at hx
      rw [Bool.and_eq_true] at hc1
      have htt : _first [cfg.totp_token, env.GROWW_TOTP_TOKEN] = none :=
        Option.isNone_iff_eq_none.mp hc1.1
      have hfl : flow = Flow.totp := by
        rw [htt] at huse
        simpa using huse
      split at hx
      · simp at hx
        exact Or.inl ⟨hx, hfl, htt, hc1.2⟩
      · have hm := growwSmokeDerive_notes_mem hx
        rcases hm with hm | hm | hm
        · by_cases hc2 : ((_first [ov,
              _first [env.GROWW_TOTP]]).isNone &&
              (_first [cfg.totp_secret, env.GROWW_TOTP_SECRET]).isNone &&
              (_first [cfg.secret, env.GROWW_API_SECRET]).isSome) = true
          · rw [if_pos hc2] at hm
            simp at hm
            rcases hm with hm | hm
            · exact Or.inl ⟨hm, hfl, htt, hc1.2⟩
            · rw [Bool.and_eq_true, Bool.and_eq_true] at hc2
              exact Or.inr (Or.inl ⟨hm, hfl,
                Option.isNone_iff_eq_none.mp hc2.1.1,
                Option.isNone_iff_eq_none.mp hc2.1.2, hc2.2⟩)
          · rw [if_neg hc2] at hm
            simp at hm
            exact Or.inl ⟨hm, hfl, htt, hc1.2⟩
        · exact Or.inr (Or.inr (Or.inl hm))
        · exact Or.inr (Or.inr (Or.inr hm))
    · rw [if_neg hc1] at hx
      split at hx
      · simp at hx
      · rename_i tok heq
        have hm := growwSmokeDerive_notes_mem hx
        rcases hm with hm | hm | hm
        · by_cases hc2 : ((_first [ov,
              _first [env.GROWW_TOTP]]).isNone &&
              (_first [cfg.totp_secret, env.GROWW_TOTP_SECRET]).isNone &&
              (_first [cfg.secret, env.GROWW_API_SECRET]).isSome) = true
          · rw [if_pos hc2] at hm
            simp at hm
            rw [Bool.and_eq_true, Bool.and_eq_true] at hc2
            have htotp : _first [ov, _first [env.GROWW_TOTP]] = none :=
              Option.isNone_iff_eq_none.mp hc2.1.1
            have hts : _first [cfg.totp_secret, env.GROWW_TOTP_SECRET] =
                none := Option.isNone_iff_eq_none.mp hc2.1.2
            have hfl : flow = Flow.totp := by
              rw [htotp, hts] at huse
              simpa using huse
            exact Or.inr (Or.inl ⟨hm, hfl, htotp, hts, hc2.2⟩)
          · rw [if_neg hc2] at hm
            simp at hm
        · exact Or.inr (Or.inr (Or.inl hm))
        · exact Or.inr (Or.inr (Or.inr hm))
  · rw [growwSmokeApproval_notes] at hx
    simp at hx

/-- C1 counterexample: in the REPL/menu CLI with `--flow totp`, a
`totp_secret` in the secrets file (stage 2 of the spec's precedence
list, deriving "111111") loses to the `GROWW_TOTP` environment variable
(stage 4, "222222"): the code calls the SDK with the environment
variable's code, while the spec's precedence order would resolve the
derived code. -/
theorem C1_counterexample :
    growwCliGetAccessToken ⟨Flow.totp, none, none, none, none⟩
      ⟨none, none, none, none, some "T", none, some "S"⟩
      ⟨none, none, none, none, none, some "222222", none⟩
      ⟨ChosenFlow.approval, "", "", "", ""⟩
      (fun s => if s == "S" then some "111111" else none) =
      CliTokenOutcome.totpCall "T" "222222" ∧
    specTotpPrecedenceCli ⟨Flow.totp, none, none, none, none⟩
      ⟨none, none, none, none, some "T", none, some "S"⟩
      ⟨none, none, none, none, none, some "222222", none⟩
      ⟨ChosenFlow.approval, "", "", "", ""⟩
      (fun s => if s == "S" then some "111111" else none) = "111111" ∧
    ("222222" : String) ≠ "111111" := by
  refine ⟨by decide, by decide, by decide⟩

/-- C1 amended: each credential is resolved as the first non-empty value
of a fixed per-credential chain, but the chains deviate from the spec's
stage order for some credentials. (1) REPL CLI, approval flow: override,
flow-specific config key, legacy config key, flow-specific env var,
legacy env var, prompt (as claimed, with the legacy env var between env
var and prompt). (2) REPL CLI, TOTP flow: the one-time code takes the
override, then the `GROWW_TOTP` environment variable — which beats
(3) derivation from the secrets-file `totp_secret`; the prompt is last;
the `totp_token` chain is override, config key, env var (no legacy
fallback). (4) Authenticator: a TOTP call's api_key is the
override/`totp_token`-config/`GROWW_TOTP_TOKEN` chain value when that
chain is non-empty, and (5) only otherwise the legacy
`api_key`/`GROWW_API_KEY` chain value — legacy keys come after the
flow-specific env var, not before. (6) Web form, TOTP flow: the form
override and then the legacy `totp` config key beat derivation from
`totp_secret`. (7) Web form, approval flow: form override, flow-specific
config key, legacy config key, as claimed (no env vars or prompt).
(8) Authenticator, TOTP flow: the one-time code takes the override /
`GROWW_TOTP` env var before any derivation from `totp_secret`;
(9) derivation, when it runs, uses the `totp_secret`-config /
`GROWW_TOTP_SECRET` chain; (10) the legacy `secret`/`GROWW_API_SECRET`
chain substitutes only when that chain is empty, with the rename note.
(11) Smoke test, TOTP flow: the one-time code likewise takes the
override / `GROWW_TOTP` env var before derivation; (12) a TOTP call's
api_key is the `totp_token`-config/`GROWW_TOTP_TOKEN` chain value when
that chain is non-empty, and (13) only otherwise the legacy
`api_key`/`GROWW_API_KEY` chain value. -/
theorem C1_amended_precedence :
    (∀ (a : CliArgs) (cfg : Cfg) (env : Env) (p : CliPrompts)
      (f : String → Option String),
      a.flow = Flow.approval →
      growwCliGetAccessToken a cfg env p f =
        .approvalCall
          ((_first [a.approval_api_key, cfg.approval_api_key, cfg.api_key,
            env.GROWW_APPROVAL_API_KEY, env.GROWW_API_KEY]).getD
            p.approval_api_key)
          ((_first [a.approval_secret, cfg.approval_secret, cfg.secret,
            env.GROWW_APPROVAL_SECRET, env.GROWW_API_SECRET]).getD
            p.approval_secret)) ∧
    (∀ (a : CliArgs) (cfg : Cfg) (env : Env) (p : CliPrompts)
      (f : String → Option String) (t : String),
      a.flow = Flow.totp →
      _first [a.totp, env.GROWW_TOTP] = some t →
      growwCliGetAccessToken a cfg env p f =
        .totpCall ((_first [a.totp_token, cfg.totp_token,
          env.GROWW_TOTP_TOKEN]).getD p.totp_token) t) ∧
    (∀ (a : CliArgs) (cfg : Cfg) (env : Env) (p : CliPrompts)
      (f : String → Option String) (sec code : String),
      a.flow = Flow.totp →
      _first [a.totp, env.GROWW_TOTP] = none →
      _first [cfg.totp_secret, env.GROWW_TOTP_SECRET] = some sec →
      f sec = some code → pyIsEmpty code = false →
      growwCliGetAccessToken a cfg env p f =
        .totpCall ((_first [a.totp_token, cfg.totp_token,
          env.GROWW_TOTP_TOKEN]).getD p.totp_token) code) ∧
    (∀ (a : AuthArgs) (cfg : Cfg) (env : Env) (f : String → Option String)
      (tok k t : String) (notes : List String),
      _first [a.totp_token, cfg.totp_token, env.GROWW_TOTP_TOKEN] = some tok →
      growwAuthResolve a cfg env f = (notes, .ok (.totpCall k t)) →
      k = tok) ∧
    (∀ (a : AuthArgs) (cfg : Cfg) (env : Env) (f : String → Option String)
      (k0 k t : String) (notes : List String),
      _first [a.totp_token, cfg.totp_token, env.GROWW_TOTP_TOKEN] = none →
      _first [cfg.api_key, env.GROWW_API_KEY] = some k0 →
      growwAuthResolve a cfg env f = (notes, .ok (.totpCall k t)) →
      k = k0) ∧
    (∀ (form : ConnectForm) (cfg : Cfg) (f : String → Option String)
      (tok t : String),
      form.flow = Flow.totp → form.use_secrets = true →
      _first [some form.totp_token, cfg.totp_token] = some tok →
      _first [some form.totp, cfg.totp] = some t →
      connectResolve form cfg f = .totpCall tok t) ∧
    (∀ (form : ConnectForm) (cfg : Cfg) (f : String → Option String)
      (k s : String),
      form.flow = Flow.approval → form.use_secrets = true →
      _first [some form.approval_api_key, cfg.approval_api_key,
        cfg.api_key] = some k →
      _first [some form.approval_secret, cfg.approval_secret,
        cfg.secret] = some s →
      connectResolve form cfg f = .approvalCall k s) ∧
    (∀ (a : AuthArgs) (cfg : Cfg) (env : Env) (f : String → Option String)
      (tok t : String),
      a.flow = Flow.totp →
      _first [a.totp_token, cfg.totp_token, env.GROWW_TOTP_TOKEN] = some tok →
      _first [a.totp, _first [env.GROWW_TOTP]] = some t →
      growwAuthResolve a cfg env f = ([], .ok (.totpCall tok t))) ∧
    (∀ (a : AuthArgs) (cfg : Cfg) (env : Env) (f : String → Option String)
      (tok sec code : String),
      a.flow = Flow.totp →
      _first [a.totp_token, cfg.totp_token, env.GROWW_TOTP_TOKEN] = some tok →
      _first [a.totp, _first [env.GROWW_TOTP]] = none →
      _first [cfg.totp_secret, env.GROWW_TOTP_SECRET] = some sec →
      f sec = some code →
      growwAuthResolve a cfg env f = ([], .ok (.totpCall tok code))) ∧
    (∀ (a : AuthArgs) (cfg : Cfg) (env : Env) (f : String → Option String)
      (tok s0 code : String),
      a.flow = Flow.totp →
      _first [a.totp_token, cfg.totp_token, env.GROWW_TOTP_TOKEN] = some tok →
      _first [a.totp, _first [env.GROWW_TOTP]] = none →
      _first [cfg.totp_secret, env.GROWW_TOTP_SECRET] = none →
      _first [cfg.secret, env.GROWW_API_SECRET] = some s0 →
      f s0 = some code →
      growwAuthResolve a cfg env f =
        ([note_secret_as_totp_secret], .ok (.totpCall tok code))) ∧
    (∀ (ov : Option String) (cfg : Cfg) (env : Env)
      (f : String → Option String) (tok t : String),
      _first [cfg.totp_token, env.GROWW_TOTP_TOKEN] = some tok →
      _first [ov, _first [env.GROWW_TOTP]] = some t →
      growwSmokeResolve Flow.totp ov cfg env f =
        ([], .ok (.totpCall tok t))) ∧
    (∀ (flow : Flow) (ov : Option String) (cfg : Cfg) (env : Env)
      (f : String → Option String) (tok k t : String)
      (notes : List String),
      _first [cfg.totp_token, env.GROWW_TOTP_TOKEN] = some tok →
      growwSmokeResolve flow ov cfg env f = (notes, .ok (.totpCall k t)) →
      k = tok) ∧
    (∀ (flow : Flow) (ov : Option String) (cfg : Cfg) (env : Env)
      (f : String → Option String) (k0 k t : String)
      (notes : List String),
      _first [cfg.totp_token, env.GROWW_TOTP_TOKEN] = none →
      _first [cfg.api_key, env.GROWW_API_KEY] = some k0 →
      growwSmokeResolve flow ov cfg env f = (notes, .ok (.totpCall k t)) →
      k = k0) := by
  refine ⟨?_, ?_, ?_, ?_, ?_, ?_, ?_, ?_, ?_, ?_, ?_, ?_, ?_⟩
  · intro a cfg env p f h
    simp [growwCliGetAccessToken, h]
  · intro a cfg env p f t h h2
    simp [growwCliGetAccessToken, h, h2]
  · intro a cfg env p f sec code h h2 h3 h4 h5
    simp [growwCliGetAccessToken, h, h2, h3, h4, h5]
  · intro a cfg env f tok k t notes h1 h2
    simp only [growwAuthResolve, h1] at h2
    simp only [Option.isNone_some, Bool.false_and, if_false,
      Bool.false_eq_true, ite_false] at h2
    split at h2
    · exact growwAuthDerive_key h2
    · exact (growwAuthApproval_not_totp h2).elim
  · intro a cfg env f k0 k t notes h1 h1b h2
    simp only [growwAuthResolve, h1, h1b] at h2
    simp only [Option.isNone_none, Option.isSome_some, Bool.and_self,
      Bool.true_and, if_true, ite_true] at h2
    split at h2
    · exact growwAuthDerive_key h2
    · exact (growwAuthApproval_not_totp h2).elim
  · intro form cfg f tok t h hu h2 h3
    simp [connectResolve, h, hu, h2, h3]
  · intro form cfg f k s h hu h2 h3
    simp [connectResolve, h, hu, h2, h3]
  · intro a cfg env f tok t h1 h2 h3
    simp [growwAuthResolve, growwAuthDerive, growwAuthTotpFinish,
      h1, h2, h3]
  · intro a cfg env f tok sec code h1 h2 h3 h4 h5
    simp [growwAuthResolve, growwAuthDerive, growwAuthTotpFinish,
      h1, h2, h3, h4, h5]
  · intro a cfg env f tok s0 code h1 h2 h3 h4 h5 h6
    simp [growwAuthResolve, growwAuthDerive, growwAuthTotpFinish,
      h1, h2, h3, h4, h5, h6]
  · intro ov cfg env f tok t h2 h3
    simp [growwSmokeResolve, growwSmokeDerive, growwSmokeTotpFinish,
      h2, h3]
  · intro flow ov cfg env f tok k t notes h1 h2
    simp only [growwSmokeResolve, h1] at h2
    simp only [Option.isNone_some, Bool.false_and, if_false,
      Bool.false_eq_true, ite_false] at h2
    split at h2
    · exact growwSmokeDerive_key h2
    · exact (growwSmokeApproval_not_totp h2).elim
  · intro flow ov cfg env f k0 k t notes h1 h1b h2
    simp only [growwSmokeResolve, h1, h1b] at h2
    simp only [Option.isNone_none, Option.isSome_some, Bool.and_self,
      Bool.true_and, if_true, ite_true] at h2
    split at h2
    · exact growwSmokeDerive_key h2
    · exact (growwSmokeApproval_not_totp h2).elim

/-- Witness for C1 amended at concrete inputs: the REPL CLI approval
flow resolves the api_key from the flag override, and the web form TOTP
flow uses the config `totp` over the config `totp_secret`. -/
theorem C1_amended_precedence_witness :
    growwCliGetAccessToken ⟨Flow.approval, some "AK", some "AS", none, none⟩
      emptyCfg emptyEnv ⟨ChosenFlow.approval, "pk", "ps", "pt", "po"⟩
      (fun _ => none) = CliTokenOutcome.approvalCall "AK" "AS" ∧
    connectResolve ⟨Flow.totp, true, "", "", "TK", "", ""⟩
      ⟨none, none, none, none, none, some "999999", some "SEC"⟩
      (fun _ => some "000000") = ConnectOutcome.totpCall "TK" "999999" := by
  constructor
  · have h := C1_amended_precedence.1
      ⟨Flow.approval, some "AK", some "AS", none, none⟩
      emptyCfg emptyEnv ⟨ChosenFlow.approval, "pk", "ps", "pt", "po"⟩
      (fun _ => none) rfl
    exact h.trans (by decide)
  · have h := C1_amended_precedence.2.2.2.2.2.1
      ⟨Flow.totp, true, "", "", "TK", "", ""⟩
      ⟨none, none, none, none, none, some "999999", some "SEC"⟩
      (fun _ => some "000000") "TK" "999999" rfl rfl (by decide) (by decide)
    exact h

/-- C3: deriving a TOTP code from a `totp_secret` that pyotp rejects is
an error, not a code; in the CLI authenticator and the smoke test that
failure, reached with a TOTP token at hand and no one-time code, is
handled by flow: under `--flow auto` the run prints the fallback note
and continues with the approval flow, under `--flow totp` it exits with
the error message. -/
theorem C3_invalid_totp_secret_flow :
    (∀ (f : String → Option String) (s : String), f s = none →
      _totp_now_from_secret f s = .error invalidSecretMsgAuth) ∧
    (∀ (a : AuthArgs) (cfg : Cfg) (env : Env) (f : String → Option String)
      (tok sec : String),
      a.flow = Flow.auto →
      _first [a.totp_token, cfg.totp_token, env.GROWW_TOTP_TOKEN] = some tok →
      _first [a.totp, _first [env.GROWW_TOTP]] = none →
      _first [cfg.totp_secret, env.GROWW_TOTP_SECRET] = some sec →
      f sec = none →
      growwAuthResolve a cfg env f =
        growwAuthApproval [note_invalid_secret_fallback]
          (_first [cfg.approval_api_key,
            _first [cfg.api_key, env.GROWW_API_KEY],
            env.GROWW_APPROVAL_API_KEY])
          (_first [cfg.approval_secret,
            _first [cfg.secret, env.GROWW_API_SECRET],
            env.GROWW_APPROVAL_SECRET])) ∧
    (∀ (a : AuthArgs) (cfg : Cfg) (env : Env) (f : String → Option String)
      (tok sec : String),
      a.flow = Flow.totp →
      _first [a.totp_token, cfg.totp_token, env.GROWW_TOTP_TOKEN] = some tok →
      _first [a.totp, _first [env.GROWW_TOTP]] = none →
      _first [cfg.totp_secret, env.GROWW_TOTP_SECRET] = some sec →
      f sec = none →
      growwAuthResolve a cfg env f = ([], .error invalidSecretMsgAuth)) ∧
    (∀ (ov : Option String) (cfg : Cfg) (env : Env)
      (f : String → Option String) (tok sec : String),
      _first [cfg.totp_token, env.GROWW_TOTP_TOKEN] = some tok →
      _first [ov, _first [env.GROWW_TOTP]] = none →
      _first [cfg.totp_secret, env.GROWW_TOTP_SECRET] = some sec →
      f sec = none →
      growwSmokeResolve Flow.auto ov cfg env f =
        growwSmokeApproval [note_invalid_secret_fallback]
          (_first [cfg.approval_api_key,
            _first [cfg.api_key, env.GROWW_API_KEY],
            env.GROWW_APPROVAL_API_KEY])
          (_first [cfg.approval_secret,
            _first [cfg.secret, env.GROWW_API_SECRET],
            env.GROWW_APPROVAL_SECRET])) ∧
    (∀ (ov : Option String) (cfg : Cfg) (env : Env)
      (f : String → Option String) (tok sec : String),
      _first [cfg.totp_token, env.GROWW_TOTP_TOKEN] = some tok →
      _first [ov, _first [env.GROWW_TOTP]] = none →
      _first [cfg.totp_secret, env.GROWW_TOTP_SECRET] = some sec →
      f sec = none →
      growwSmokeResolve Flow.totp ov cfg env f =
        ([], .error invalidSecretMsgAuth)) := by
  refine ⟨?_, ?_, ?_, ?_, ?_⟩
  · intro f s h
    simp [_totp_now_from_secret, h]
  · intro a cfg env f tok sec h1 h2 h3 h4 h5
    simp [growwAuthResolve, growwAuthDerive, h1, h2, h3, h4, h5]
  · intro a cfg env f tok sec h1 h2 h3 h4 h5
    simp [growwAuthResolve, growwAuthDerive, h1, h2, h3, h4, h5]
  · intro ov cfg env f tok sec h2 h3 h4 h5
    simp [growwSmokeResolve, growwSmokeDerive, h2, h3, h4, h5]
  · intro ov cfg env f tok sec h2 h3 h4 h5
    simp [growwSmokeResolve, growwSmokeDerive, h2, h3, h4, h5]

/-- Witness for C3 at a concrete input: a secrets file with
`totp_token = "T"`, an invalid `totp_secret = "BAD"` and approval
credentials; under auto the run prints the note and makes the approval
call, under `--flow totp` it exits with the error message. -/
theorem C3_invalid_totp_secret_flow_witness :
    growwAuthResolve ⟨Flow.auto, none, some "T", false, false⟩
      ⟨none, none, some "AK", some "AS", none, none, some "BAD"⟩ emptyEnv
      (fun _ => none) =
      ([note_invalid_secret_fallback], .ok (.approvalCall "AK" "AS")) ∧
    growwAuthResolve ⟨Flow.totp, none, some "T", false, false⟩
      ⟨none, none, some "AK", some "AS", none, none, some "BAD"⟩ emptyEnv
      (fun _ => none) = ([], .error invalidSecretMsgAuth) := by
  constructor
  · have h := C3_invalid_totp_secret_flow.2.1
      ⟨Flow.auto, none, some "T", false, false⟩
      ⟨none, none, some "AK", some "AS", none, none, some "BAD"⟩ emptyEnv
      (fun _ => none) "T" "BAD" rfl (by decide) (by decide) (by decide) rfl
    exact h.trans rfl
  · exact C3_invalid_totp_secret_flow.2.2.1
      ⟨Flow.totp, none, some "T", false, false⟩
      ⟨none, none, some "AK", some "AS", none, none, some "BAD"⟩ emptyEnv
      (fun _ => none) "T" "BAD" rfl (by decide) (by decide) (by decide) rfl

/-- C4 counterexample: an authenticator run whose secrets file has only
the legacy `api_key`/`secret` keys uses them for the approval flow
(`approval_api_key` is absent) yet prints no rename notice — the notes
list of the run is empty. -/
theorem C4_counterexample :
    growwAuthResolve ⟨Flow.auto, none, none, false, false⟩
      ⟨some "K", some "S", none, none, none, none, none⟩ emptyEnv
      (fun _ => none) = ([], .ok (.approvalCall "K" "S")) ∧
    Cfg.approval_api_key
      ⟨some "K", some "S", none, none, none, none, none⟩ = none ∧
    Cfg.api_key ⟨some "K", some "S", none, none, none, none, none⟩ =
      some "K" :=
  ⟨rfl, rfl, rfl⟩

/-- C4 amended: rename notices are printed only by the CLI authenticator
and the smoke test (the REPL CLI and web form outcome models carry no
prints at all), and only when the TOTP flow substitutes the legacy
`api_key` for a missing `totp_token` or the legacy `secret` for a
missing `totp_secret`; the approval flow prints no notice even when it
uses the legacy keys. Positively: under `--flow totp` each substitution
condition makes its notice appear (conjuncts 2-5); negatively: a run with
`--flow approval` prints nothing (conjunct 1), and whenever either
rename notice appears in an authenticator or smoke-test run, the flow
was `totp` and exactly that substitution's conditions held — so no
rename notice ever appears under `auto` or `approval`, or when the
flow-specific keys were present (conjuncts 6-9). -/
theorem C4_amended_rename_notices :
    (∀ (a : AuthArgs) (cfg : Cfg) (env : Env) (f : String → Option String),
      a.flow = Flow.approval → (growwAuthResolve a cfg env f).1 = []) ∧
    (∀ (a : AuthArgs) (cfg : Cfg) (env : Env) (f : String → Option String)
      (k0 : String),
      a.flow = Flow.totp →
      _first [a.totp_token, cfg.totp_token, env.GROWW_TOTP_TOKEN] = none →
      _first [cfg.api_key, env.GROWW_API_KEY] = some k0 →
      note_api_key_as_totp_token ∈ (growwAuthResolve a cfg env f).1) ∧
    (∀ (a : AuthArgs) (cfg : Cfg) (env : Env) (f : String → Option String)
      (tok s0 : String),
      a.flow = Flow.totp →
      _first [a.totp_token, cfg.totp_token, env.GROWW_TOTP_TOKEN] = some tok →
      _first [a.totp, _first [env.GROWW_TOTP]] = none →
      _first [cfg.totp_secret, env.GROWW_TOTP_SECRET] = none →
      _first [cfg.secret, env.GROWW_API_SECRET] = some s0 →
      note_secret_as_totp_secret ∈ (growwAuthResolve a cfg env f).1) ∧
    (∀ (ov : Option String) (cfg : Cfg) (env : Env)
      (f : String → Option String) (k0 : String),
      _first [cfg.totp_token, env.GROWW_TOTP_TOKEN] = none →
      _first [cfg.api_key, env.GROWW_API_KEY] = some k0 →
      note_api_key_as_totp_token ∈
        (growwSmokeResolve Flow.totp ov cfg env f).1) ∧
    (∀ (ov : Option String) (cfg : Cfg) (env : Env)
      (f : String → Option String) (tok s0 : String),
      _first [cfg.totp_token, env.GROWW_TOTP_TOKEN] = some tok →
      _first [ov, _first [env.GROWW_TOTP]] = none →
      _first [cfg.totp_secret, env.GROWW_TOTP_SECRET] = none →
      _first [cfg.secret, env.GROWW_API_SECRET] = some s0 →
      note_secret_as_totp_secret ∈
        (growwSmokeResolve Flow.totp ov cfg env f).1) ∧
    (∀ (a : AuthArgs) (cfg : Cfg) (env : Env) (f : String → Option String),
      note_api_key_as_totp_token ∈ (growwAuthResolve a cfg env f).1 →
      a.flow = Flow.totp ∧
      _first [a.totp_token, cfg.totp_token, env.GROWW_TOTP_TOKEN] = none ∧
      (_first [cfg.api_key, env.GROWW_API_KEY]).isSome = true) ∧
    (∀ (a : AuthArgs) (cfg : Cfg) (env : Env) (f : String → Option String),
      note_secret_as_totp_secret ∈ (growwAuthResolve a cfg env f).1 →
      a.flow = Flow.totp ∧
      _first [a.totp, _first [env.GROWW_TOTP]] = none ∧
      _first [cfg.totp_secret, env.GROWW_TOTP_SECRET] = none ∧
      (_first [cfg.secret, env.GROWW_API_SECRET]).isSome = true) ∧
    (∀ (flow : Flow) (ov : Option String) (cfg : Cfg) (env : Env)
      (f : String → Option String),
      note_api_key_as_totp_token ∈ (growwSmokeResolve flow ov cfg env f).1 →
      flow = Flow.totp ∧
      _first [cfg.totp_token, env.GROWW_TOTP_TOKEN] = none ∧
      (_first [cfg.api_key, env.GROWW_API_KEY]).isSome = true) ∧
    (∀ (flow : Flow) (ov : Option String) (cfg : Cfg) (env : Env)
      (f : String → Option String),
      note_secret_as_totp_secret ∈ (growwSmokeResolve flow ov cfg env f).1 →
      flow = Flow.totp ∧
      _first [ov, _first [env.GROWW_TOTP]] = none ∧
      _first [cfg.totp_secret, env.GROWW_TOTP_SECRET] = none ∧
      (_first [cfg.secret, env.GROWW_API_SECRET]).isSome = true) := by
  refine ⟨?_, ?_, ?_, ?_, ?_, ?_, ?_, ?_, ?_⟩
  · intro a cfg env f h
    simp [growwAuthResolve, h, growwAuthApproval_notes]
  · intro a cfg env f k0 h1 h2 h3
    simp only [growwAuthResolve, h1, h2, h3]
    simp only [Option.isNone_none, Option.isSome_some, Bool.and_self,
      Bool.true_and, ite_true, beq_self_eq_true, Bool.true_or, if_true]
    apply growwAuthDerive_notes_mono
    split <;> simp
  · intro a cfg env f tok s0 h1 h2 h3 h4 h5
    simp only [growwAuthResolve, h1, h2, h3, h4, h5]
    simp only [Option.isNone_some, Option.isNone_none, Option.isSome_some,
      Bool.false_and, Bool.and_self, Bool.true_and, Bool.and_true,
      ite_false, ite_true, beq_self_eq_true, Bool.true_or, if_true,
      if_false]
    apply growwAuthDerive_notes_mono
    simp
  · intro ov cfg env f k0 h2 h3
    simp only [growwSmokeResolve, h2, h3]
    simp only [Option.isNone_none, Option.isSome_some, Bool.and_self,
      Bool.true_and, ite_true, beq_self_eq_true, Bool.true_or, if_true]
    apply growwSmokeDerive_notes_mono
    split <;> simp
  · intro ov cfg env f tok s0 h1 h2 h3 h4
    simp only [growwSmokeResolve, h1, h2, h3, h4]
    simp only [Option.isNone_some, Option.isNone_none, Option.isSome_some,
      Bool.false_and, Bool.and_self, Bool.true_and, Bool.and_true,
      ite_false, ite_true, beq_self_eq_true, Bool.true_or, if_true,
      if_false]
    apply growwSmokeDerive_notes_mono
    simp
  · intro a cfg env f h
    rcases growwAuthResolve_notes_sub a cfg env f _ h with
      ⟨_, hp⟩ | ⟨hbad, _⟩ | hbad | hbad
    · exact hp
    · exact absurd hbad (by decide)
    · exact absurd hbad (by decide)
    · exact absurd hbad (by decide)
  · intro a cfg env f h
    rcases growwAuthResolve_notes_sub a cfg env f _ h with
      ⟨hbad, _⟩ | ⟨_, hp⟩ | hbad | hbad
    · exact absurd hbad (by decide)
    · exact hp
    · exact absurd hbad (by decide)
    · exact absurd hbad (by decide)
  · intro flow ov cfg env f h
    rcases growwSmokeResolve_notes_sub flow ov cfg env f _ h with
      ⟨_, hp⟩ | ⟨hbad, _⟩ | hbad | hbad
    · exact hp
    · exact absurd hbad (by decide)
    · exact absurd hbad (by decide)
    · exact absurd hbad (by decide)
  · intro flow ov cfg env f h
    rcases growwSmokeResolve_notes_sub flow ov cfg env f _ h with
      ⟨hbad, _⟩ | ⟨_, hp⟩ | hbad | hbad
    · exact absurd hbad (by decide)
    · exact hp
    · exact absurd hbad (by decide)
    · exact absurd hbad (by decide)

/-- Witness for C4 amended at a concrete input: a secrets file with only
the legacy `api_key` plus a `--totp` override makes the authenticator
print exactly the `api_key` rename notice. -/
theorem C4_amended_rename_notices_witness :
    (growwAuthResolve ⟨Flow.totp, some "123456", none, false, false⟩
      ⟨some "K", none, none, none, none, none, none⟩ emptyEnv
      (fun _ => none)).1 = [note_api_key_as_totp_token] ∧
    note_api_key_as_totp_token ∈
      (growwAuthResolve ⟨Flow.totp, some "123456", none, false, false⟩
        ⟨some "K", none, none, none, none, none, none⟩ emptyEnv
        (fun _ => none)).1 :=
  ⟨rfl,
    C4_amended_rename_notices.2.1
      ⟨Flow.totp, some "123456", none, false, false⟩
      ⟨some "K", none, none, none, none, none, none⟩ emptyEnv
      (fun _ => none) "K" rfl (by decide) (by decide)⟩

/-- C2: for every method name in the six-element trading set, the CLI's
`--call` path invokes the SDK method only if the typed confirmation,
stripped, equals exactly "PLACE", and terminates with "Aborted." before
any SDK call otherwise; no confirmation is requested for other method
names; and the web UI rejects the same six methods with an error unless
the trading flag is enabled. -/
theorem C2_trading_gate :
    (∀ name typed, trading_methods.contains name = true →
      (_confirm_if_trading name typed = .prompted ↔ pyStrip typed = "PLACE")) ∧
    (∀ name typed, trading_methods.contains name = false →
      _confirm_if_trading name typed = .notPrompted) ∧
    (∀ (hasM callM : String → Bool) (jp : String → Except String JVal)
        (name typed : String) (argsOpt kwargsOpt : Option String),
      trading_methods.contains (pyStrip name) = true →
      pyStartsWith (pyStrip name) "_" = false →
      hasM (pyStrip name) = true → callM (pyStrip name) = true →
      pyStrip typed ≠ "PLACE" →
      cliCall hasM callM jp name typed argsOpt kwargsOpt = .exit "Aborted.") ∧
    (∀ name allow,
      _require_no_trading name allow = .error tradingBlockedMsg ↔
        (trading_methods.contains name = true ∧ allow = false)) ∧
    (∀ (hasM callM : String → Bool) (jp : String → Except String JVal)
        (sdk : Except String JVal) (token name aj kj : String),
      trading_methods.contains name = true →
      pyIsEmpty token = false → pyIsEmpty (pyStrip name) = false →
      hasM name = true → callM name = true →
      call_method hasM callM jp sdk token name aj kj false =
        (false, errDict tradingBlockedMsg)) := by
  refine ⟨?_, ?_, ?_, ?_, ?_⟩
  · intro name typed h
    simp only [_confirm_if_trading, h, if_true]
    constructor
    · intro hp
      by_cases he : pyStrip typed = "PLACE"
      · exact he
      · simp [he] at hp
    · intro he; simp [he]
  · intro name typed h
    have h' : ¬ name ∈ trading_methods := by simpa using h
    simp [_confirm_if_trading, h']
  · intro hasM callM jp name typed argsOpt kwargsOpt h hu hh hc ht
    simp only [cliCall, hu, hh, hc, Bool.not_true, Bool.false_or,
      Bool.or_false, if_false]
    simp only [_confirm_if_trading, h, if_true]
    have : (pyStrip typed == "PLACE") = false := by
      simpa using ht
    simp [this]
  · intro name allow
    unfold _require_no_trading
    rcases h : trading_methods.contains name <;> rcases ha : allow <;> simp
  · intro hasM callM jp sdk token name aj kj h htok hnm hh hc
    have h' : name ∈ trading_methods := by simpa using h
    simp only [call_method, htok, hnm, hh, hc, Bool.not_true,
      Bool.false_eq_true, if_false]
    simp [_require_no_trading, h']

/-- Witness for C2 at concrete inputs: `place_order` with a typed
confirmation other than "PLACE" aborts the CLI call, and is blocked in
the web UI when the trading flag is off. -/
theorem C2_trading_gate_witness :
    trading_methods.contains (pyStrip "place_order") = true ∧
    pyStrip "no" ≠ "PLACE" ∧
    cliCall (fun _ => true) (fun _ => true) (fun _ => .error "e")
      "place_order" "no" none none = .exit "Aborted." ∧
    call_method (fun _ => true) (fun _ => true) (fun _ => .error "e")
      (.ok .null) "tok" "place_order" "" "" false =
      (false, errDict tradingBlockedMsg) :=
  ⟨by decide, by decide,
    C2_trading_gate.2.2.1 (fun _ => true) (fun _ => true) (fun _ => .error "e")
      "place_order" "no" none none (by decide) (by decide) rfl rfl (by decide),
    C2_trading_gate.2.2.2.2 (fun _ => true) (fun _ => true)
      (fun _ => .error "e") (.ok .null) "tok" "place_order" "" "" (by decide)
      (by decide) (by decide) rfl rfl⟩

/-- C9: an authenticator run writes a file exactly when it both succeeds
and was passed `--save-token`, and then it writes only `.access_token`
with the stripped token followed by a newline; without the flag, and on
every failing run, no file is written. -/
theorem C9_token_file :
    ∀ (a : AuthArgs) (cfg : Cfg) (env : Env) (f : String → Option String)
      (sdk : SdkAuthCall → JVal) (pyRepr : JVal → String),
      (a.save_token = false →
        (growwAuthMain a cfg env f sdk pyRepr).writes = []) ∧
      (∀ m, (growwAuthMain a cfg env f sdk pyRepr).outcome = .error m →
        (growwAuthMain a cfg env f sdk pyRepr).writes = []) ∧
      (∀ tokenStr, a.save_token = true →
        (growwAuthMain a cfg env f sdk pyRepr).outcome = .ok tokenStr →
        (growwAuthMain a cfg env f sdk pyRepr).writes =
          [(".access_token", pyStrip tokenStr ++ "\n")]) := by
  intro a cfg env f sdk pyRepr
  unfold growwAuthMain
  rcases hres : growwAuthResolve a cfg env f with ⟨notes, exc⟩
  rcases exc with m | call
  · simp
  · by_cases he :
      pyIsEmpty (_normalize_access_token pyRepr (sdk call)) = true
    · simp [he]
    · refine ⟨fun hs => by simp [he, hs], fun m hm => ?_, fun ts hs hok => ?_⟩
      · simp [he] at hm
      · simp [he] at hok ⊢
        rw [hs, if_pos rfl]
        rw [hok]

/-- Witness for C9 at concrete inputs: with `--save-token` a successful
run writes exactly the token file; without it the same run writes
nothing. -/
theorem C9_token_file_witness :
    (growwAuthMain ⟨Flow.auto, none, none, false, true⟩
      ⟨some "K", some "S", none, none, none, none, none⟩ emptyEnv
      (fun _ => none) (fun _ => .str " tok ") (fun _ => "")).outcome =
        .ok " tok " ∧
    (growwAuthMain ⟨Flow.auto, none, none, false, true⟩
      ⟨some "K", some "S", none, none, none, none, none⟩ emptyEnv
      (fun _ => none) (fun _ => .str " tok ") (fun _ => "")).writes =
        [(".access_token", "tok\n")] ∧
    (growwAuthMain ⟨Flow.auto, none, none, false, false⟩
      ⟨some "K", some "S", none, none, none, none, none⟩ emptyEnv
      (fun _ => none) (fun _ => .str " tok ") (fun _ => "")).writes = [] := by
  refine ⟨rfl, ?_, ?_⟩
  · have h := (C9_token_file ⟨Flow.auto, none, none, false, true⟩
      ⟨some "K", some "S", none, none, none, none, none⟩ emptyEnv
      (fun _ => none) (fun _ => .str " tok ") (fun _ => "")).2.2
      " tok " rfl rfl
    exact h.trans (by rfl)
  · exact (C9_token_file ⟨Flow.auto, none, none, false, false⟩
      ⟨some "K", some "S", none, none, none, none, none⟩ emptyEnv
      (fun _ => none) (fun _ => .str " tok ") (fun _ => "")).1 rfl

/-- C10 counterexample: the claim's universal over every data-fetching
web handler fails on `search_instruments` (groww_gradio.py lines
684-685, 725-726): with an empty stored token it returns the bare
string "Not connected" — modelled by `SearchOut.msg`, a plain string
output — and its caught exceptions come back as bare "Error: ..."
strings, never as the dict `\x7b"error": msg\x7d` that `errDict`
denotes. -/
theorem C10_counterexample :
    search_instruments strContains "" ⟨["trading_symbol"], []⟩ "WIPRO" ""
      "" 25 = .msg "Not connected" ∧
    search_instruments strContains "tok"
      ⟨["trading_symbol"], [fun _ => "wipro"]⟩ "WIPRO" "NSE" "" 25 =
      .msg "Error: KeyError: exchange" ∧
    errDict "Not connected" = .obj [("error", .str "Not connected")] :=
  ⟨rfl, rfl, rfl⟩

/-- C10 amended: the JSON-returning web data handlers (`get_quote`,
`backtest_simple`, `call_method`) are total at their interface: with an
empty stored token they return the "Not connected" error dict without
invoking the SDK (first component false); when the underlying call
raises, the raised message comes back as an error dict instead of a
propagated exception; and a division by zero in `backtest_simple`
(first parsed close 0, at least two closes) is returned as the
`ZeroDivisionError` error dict. The instrument-search handler is total
in the same way but returns bare strings instead of error dicts: "Not
connected" on an empty token and "Error: ..." on a caught exception. -/
theorem C10_handler_totality :
    (∀ (sdk : Except String JVal),
      get_quote "" sdk = (false, errDict "Not connected")) ∧
    (∀ (token e : String), pyIsEmpty token = false →
      get_quote token (.error e) = (true, errDict e)) ∧
    (∀ (strToFloat : String → Option ℚ) (sdk : Except String JVal),
      backtest_simple strToFloat "" sdk = (false, errDict "Not connected")) ∧
    (∀ (strToFloat : String → Option ℚ) (token e : String),
      pyIsEmpty token = false →
      backtest_simple strToFloat token (.error e) = (true, errDict e)) ∧
    (∀ (strToFloat : String → Option ℚ) (token : String) (data : JVal),
      pyIsEmpty token = false →
      ¬ ((_extract_candles data).filterMap
          (_parse_candle_close strToFloat)).length < 2 →
      ((_extract_candles data).filterMap
          (_parse_candle_close strToFloat)).headD 0 = 0 →
      backtest_simple strToFloat token (.ok data) =
        (true, errDict divZeroMsg)) ∧
    (∀ (hasM callM : String → Bool) (jp : String → Except String JVal)
      (sdk : Except String JVal) (name aj kj : String) (allow : Bool),
      call_method hasM callM jp sdk "" name aj kj allow =
        (false, errDict "Not connected")) ∧
    (∀ (hasM callM : String → Bool) (jp : String → Except String JVal)
      (token name aj kj e : String) (allow : Bool),
      pyIsEmpty token = false → pyIsEmpty (pyStrip name) = false →
      hasM name = true → callM name = true →
      _require_no_trading name allow = .ok () →
      pyIsEmpty (pyStrip aj) = true → pyIsEmpty (pyStrip kj) = true →
      call_method hasM callM jp (.error e) token name aj kj allow =
        (true, errDict e)) ∧
    (∀ (pd : String → String → Bool) (df : Table)
      (query ex seg : String) (lim : Int),
      search_instruments pd "" df query ex seg lim =
        .msg "Not connected") ∧
    (∀ (pd : String → String → Bool) (tok : String) (df : Table)
      (query seg : String) (ex : String) (lim : Int),
      pyIsEmpty tok = false → pyIsEmpty (pyStrip query) = false →
      pyIsEmpty ex = false → df.cols.contains "exchange" = false →
      search_instruments pd tok df query ex seg lim =
        .msg ("Error: " ++ ("KeyError: " ++ "exchange"))) := by
  refine ⟨?_, ?_, ?_, ?_, ?_, ?_, ?_, ?_, ?_⟩
  · intro sdk; simp [get_quote, pyIsEmpty]
  · intro token e h; simp [get_quote, h]
  · intro strToFloat sdk; simp [backtest_simple, pyIsEmpty]
  · intro strToFloat token e h; simp [backtest_simple, h]
  · intro strToFloat token data h hlen hz
    have hz' : (List.findSome? (_parse_candle_close strToFloat)
        (_extract_candles data)).getD 0 = 0 := by simpa using hz
    simp [backtest_simple, h, hlen, hz']
  · intro hasM callM jp sdk name aj kj allow
    simp [call_method, pyIsEmpty]
  · intro hasM callM jp token name aj kj e allow h1 h2 h3 h4 h5 h6 h7
    simp [call_method, h1, h2, h3, h4, h5, h6, h7, JVal.isArr, JVal.isObj]
  · intro pd df query ex seg lim
    simp [search_instruments, pyIsEmpty]
  · intro pd tok df query seg ex lim h1 h2 h3 h4
    have h2' : pyIsEmpty (pyLower (pyStrip query)) = false := by
      rw [pyIsEmpty_pyLower]; exact h2
    have h4' : ¬ "exchange" ∈ df.cols := by simpa using h4
    simp [search_instruments, optFilterTruthy, h1, h2', h3, h4']

/-- Witness for C10 at concrete inputs: an empty token and a raising
SDK call for `get_quote`, and a zero first close for the backtest. -/
theorem C10_handler_totality_witness :
    get_quote "" (.ok .null) = (false, errDict "Not connected") ∧
    get_quote "tok" (.error "boom") = (true, errDict "boom") ∧
    backtest_simple (fun _ => none) "tok"
      (.ok (.arr [.arr [.num 1, .num 2, .num 3, .num 4, .num 0],
        .arr [.num 1, .num 2, .num 3, .num 4, .num 7]])) =
      (true, errDict divZeroMsg) :=
  ⟨C10_handler_totality.1 (.ok .null),
    C10_handler_totality.2.1 "tok" "boom" (by decide),
    C10_handler_totality.2.2.2.2.1 (fun _ => none) "tok"
      (.arr [.arr [.num 1, .num 2, .num 3, .num 4, .num 0],
        .arr [.num 1, .num 2, .num 3, .num 4, .num 7]])
      (by decide) (by decide) (by decide)⟩

/-- C5 counterexample: a fetched series whose closes parse to `0` and
`5` has two parsed closes (so the claim's "fewer than two" error case
does not apply), yet `backtest_simple` returns the division-by-zero
error dict instead of a summary. -/
theorem C5_counterexample :
    ((_extract_candles (JVal.arr
        [.arr [.num 1, .num 2, .num 3, .num 4, .num 0],
         .arr [.num 1, .num 2, .num 3, .num 4, .num 5]])).filterMap
      (_parse_candle_close (fun _ => none))).length = 2 ∧
    backtest_simple (fun _ => none) "tok"
      (.ok (.arr [.arr [.num 1, .num 2, .num 3, .num 4, .num 0],
        .arr [.num 1, .num 2, .num 3, .num 4, .num 5]])) =
      (true, errDict divZeroMsg) :=
  ⟨by decide, rfl⟩

/-- C5 amended: on a successful fetch, with `closes` the parsed closes
of the extracted candles (in series order), `backtest_simple` returns
the error dict when fewer than two closes parse, the division-by-zero
error dict when the first parsed close is 0, and otherwise the summary
whose count is the number of parsed closes, whose start/end closes are
the first and last parsed closes, and whose return_pct is
`((end_close - start_close) / start_close) * 100`. -/
theorem C5_amended_backtest :
    ∀ (strToFloat : String → Option ℚ) (token : String) (data : JVal)
      (closes : List ℚ),
      closes =
        (_extract_candles data).filterMap (_parse_candle_close strToFloat) →
      pyIsEmpty token = false →
      ((closes.length < 2 →
        backtest_simple strToFloat token (.ok data) =
          (true, errDict notEnoughCandlesMsg)) ∧
      (¬ closes.length < 2 → closes.headD 0 = 0 →
        backtest_simple strToFloat token (.ok data) =
          (true, errDict divZeroMsg)) ∧
      (¬ closes.length < 2 → closes.headD 0 ≠ 0 →
        backtest_simple strToFloat token (.ok data) =
          (true, .obj [("count", .num (closes.length : ℚ)),
            ("start_close", .num (closes.headD 0)),
            ("end_close", .num (closes.getLastD 0)),
            ("return_pct", .num
              (((closes.getLastD 0 - closes.headD 0) / closes.headD 0) *
                100))]))) := by
  intro strToFloat token data closes hc htok
  subst hc
  refine ⟨?_, ?_, ?_⟩
  · intro hlen
    simp [backtest_simple, htok, hlen]
  · intro hlen hz
    have hz' : (List.findSome? (_parse_candle_close strToFloat)
        (_extract_candles data)).getD 0 = 0 := by simpa using hz
    simp [backtest_simple, htok, hlen, hz']
  · intro hlen hz
    have hz' : ¬ (List.findSome? (_parse_candle_close strToFloat)
        (_extract_candles data)).getD 0 = 0 := by simpa using hz
    simp [backtest_simple, htok, hlen, hz']

/-- Witness for C5 amended at a concrete input: closes `5` and `7`
produce the summary with count 2 and a 40 percent return. -/
theorem C5_amended_backtest_witness :
    ¬ (((_extract_candles (JVal.arr
        [.arr [.num 1, .num 2, .num 3, .num 4, .num 5],
         .arr [.num 1, .num 2, .num 3, .num 4, .num 7]])).filterMap
      (_parse_candle_close (fun _ => none))).length < 2) ∧
    backtest_simple (fun _ => none) "tok"
      (.ok (.arr [.arr [.num 1, .num 2, .num 3, .num 4, .num 5],
        .arr [.num 1, .num 2, .num 3, .num 4, .num 7]])) =
      (true, .obj [("count", .num 2), ("start_close", .num 5),
        ("end_close", .num 7), ("return_pct", .num 40)]) := by
  refine ⟨by decide, ?_⟩
  have h := (C5_amended_backtest (fun _ => none) "tok"
    (.arr [.arr [.num 1, .num 2, .num 3, .num 4, .num 5],
      .arr [.num 1, .num 2, .num 3, .num 4, .num 7]]) _ rfl
    (by decide)).2.2 (by decide) (by decide)
  have hc : (_extract_candles (JVal.arr
      [.arr [.num 1, .num 2, .num 3, .num 4, .num 5],
       .arr [.num 1, .num 2, .num 3, .num 4, .num 7]])).filterMap
      (_parse_candle_close (fun _ => none)) = [(5 : ℚ), 7] := by decide
  rw [hc] at h
  refine h.trans ?_
  norm_num [List.headD, List.getLastD]

mutual
/-- Pruning a non-null value leaves no null at any nesting depth. -/
theorem noNull_prune : ∀ (v : JVal), v.isNull = false →
    noNull (_prune_nulls v) = true
  | .null, h => by simp [JVal.isNull] at h
  | .bool b, _ => rfl
  | .num q, _ => rfl
  | .str s, _ => rfl
  | .arr xs, _ => by
      simpa [_prune_nulls, noNull] using noNullItems_prune xs
  | .obj fs, _ => by
      simpa [_prune_nulls, noNull] using noNullFields_prune fs

/-- Pruned dict fields contain no null at any nesting depth. -/
theorem noNullFields_prune : ∀ (fs : List (String × JVal)),
    noNullFields (pruneFields fs) = true
  | [] => rfl
  | (k, v) :: rest => by
      by_cases hv : v.isNull = true
      · simpa [pruneFields, hv] using noNullFields_prune rest
      · have hv' : v.isNull = false := by simpa using hv
        simp [pruneFields, noNullFields, hv', noNull_prune v hv',
          noNullFields_prune rest]

/-- Pruned list items contain no null at any nesting depth. -/
theorem noNullItems_prune : ∀ (xs : List JVal),
    noNullItems (pruneItems xs) = true
  | [] => rfl
  | v :: rest => by
      by_cases hv : v.isNull = true
      · simpa [pruneItems, hv] using noNullItems_prune rest
      · have hv' : v.isNull = false := by simpa using hv
        simp [pruneItems, noNullItems, hv', noNull_prune v hv',
          noNullItems_prune rest]
end

/-- Pruning dict fields keeps exactly the non-null entries, with their
keys, in order, recursively pruned. -/
theorem pruneFields_eq : ∀ (fs : List (String × JVal)),
    pruneFields fs = (fs.filter (fun kv => !kv.2.isNull)).map
      (fun kv => (kv.1, _prune_nulls kv.2))
  | [] => rfl
  | (k, v) :: rest => by
      by_cases hv : v.isNull = true <;>
        simp [pruneFields, hv, pruneFields_eq rest]

/-- Pruning list items keeps exactly the non-null items, in order,
recursively pruned. -/
theorem pruneItems_eq : ∀ (xs : List JVal),
    pruneItems xs = (xs.filter (fun v => !v.isNull)).map _prune_nulls
  | [] => rfl
  | v :: rest => by
      by_cases hv : v.isNull = true <;>
        simp [pruneItems, hv, pruneItems_eq rest]

/-- C6 counterexample: `_prune_nulls` applied to the scalar `None`
returns `None` unchanged — a value that still contains a null. -/
theorem C6_counterexample :
    _prune_nulls JVal.null = JVal.null ∧
    noNull (_prune_nulls JVal.null) = false :=
  ⟨rfl, rfl⟩

/-- C6 amended: for every JSON-like value other than `None` itself,
`_prune_nulls` returns a value containing no null at any nesting depth,
keeping every non-null entry, its key, and the relative order of list
elements unchanged; `get_quote_clean` applies exactly this pruning to
every successful quote result (a dict without an "error" key) and
returns every other result unchanged. -/
theorem C6_amended_prune :
    (∀ (v : JVal), v.isNull = false → noNull (_prune_nulls v) = true) ∧
    (∀ (fs : List (String × JVal)),
      _prune_nulls (.obj fs) =
        .obj ((fs.filter (fun kv => !kv.2.isNull)).map
          (fun kv => (kv.1, _prune_nulls kv.2)))) ∧
    (∀ (xs : List JVal),
      _prune_nulls (.arr xs) =
        .arr ((xs.filter (fun v => !v.isNull)).map _prune_nulls)) ∧
    (∀ (token : String) (sdk : Except String JVal),
      ((get_quote token sdk).2.isObj = true →
        hasErrorKey (get_quote token sdk).2 = false →
        get_quote_clean token sdk = _prune_nulls (get_quote token sdk).2) ∧
      ((get_quote token sdk).2.isObj = false ∨
          hasErrorKey (get_quote token sdk).2 = true →
        get_quote_clean token sdk = (get_quote token sdk).2)) := by
  refine ⟨noNull_prune, ?_, ?_, ?_⟩
  · intro fs
    simp [_prune_nulls, pruneFields_eq]
  · intro xs
    simp [_prune_nulls, pruneItems_eq]
  · intro token sdk
    constructor
    · intro ho he
      simp [get_quote_clean, ho, he]
    · intro hor
      rcases hor with ho | he
      · simp [get_quote_clean, ho]
      · simp [get_quote_clean, he]

/-- Witness for C6 amended at a concrete input: a dict with one null
field prunes to a null-free dict, and a successful quote result is
pruned by `get_quote_clean`. -/
theorem C6_amended_prune_witness :
    JVal.isNull (.obj [("a", JVal.null), ("b", .num 1)]) = false ∧
    noNull (_prune_nulls (.obj [("a", JVal.null), ("b", .num 1)])) = true ∧
    get_quote_clean "tok" (.ok (.obj [("a", JVal.null), ("b", .num 1)])) =
      _prune_nulls (.obj [("a", JVal.null), ("b", .num 1)]) :=
  ⟨rfl, C6_amended_prune.1 (.obj [("a", JVal.null), ("b", .num 1)]) rfl,
    (C6_amended_prune.2.2.2 "tok"
      (.ok (.obj [("a", JVal.null), ("b", .num 1)]))).1 rfl rfl⟩

/-- The row-building loop is the filterMap of the per-candle row. -/
theorem foldr_rows_eq (fmt : JVal → Option String) : ∀ (l : List JVal),
    l.foldr (fun c acc =>
      match candleRow fmt c with
      | some r => r :: acc
      | none => acc) [] = l.filterMap (candleRow fmt)
  | [] => rfl
  | c :: rest => by
      rcases h : candleRow fmt c with _ | r <;>
        simp [List.filterMap_cons, h, foldr_rows_eq fmt rest]

/-- A filterMap has as many elements as its successful inputs. -/
theorem length_filterMap_eq {α β : Type} (f : α → Option β) :
    ∀ (l : List α),
    (l.filterMap f).length = (l.filter (fun c => (f c).isSome)).length
  | [] => rfl
  | c :: rest => by
      rcases h : f c with _ | r <;>
        simp [List.filterMap_cons, h, length_filterMap_eq f rest]

/-- C7: `_candles_to_rows` produces exactly one row, in input order, per
extracted candle that is a dict or a sequence (all other candles are
skipped); sequence rows take timestamp/open/high/low/close/volume from
positions 0-5 (null past the end, the timestamp through `_format_ts`,
the parameter `fmt`); dict rows take them from the keys
timestamp/time/t/date, open/o, high/h, low/l, close/c, volume/v through
Python `or`. -/
theorem C7_candles_to_rows :
    (∀ (fmt : JVal → Option String) (data : JVal),
      _candles_to_rows fmt data =
        (_extract_candles data).filterMap (candleRow fmt)) ∧
    (∀ (fmt : JVal → Option String) (c : JVal),
      (candleRow fmt c).isSome = (c.isObj || c.isArr)) ∧
    (∀ (fmt : JVal → Option String) (data : JVal),
      (_candles_to_rows fmt data).length =
        ((_extract_candles data).filter
          (fun c => c.isObj || c.isArr)).length) ∧
    (∀ (fmt : JVal → Option String) (xs : List JVal),
      candleRow fmt (.arr xs) = some
        ⟨fmt ((xs.get? 0).getD .null), (xs.get? 1).getD .null,
          (xs.get? 2).getD .null, (xs.get? 3).getD .null,
          (xs.get? 4).getD .null, (xs.get? 5).getD .null⟩) ∧
    (∀ (fmt : JVal → Option String) (fs : List (String × JVal)),
      candleRow fmt (.obj fs) = some
        ⟨fmt (pyOr (jGet (.obj fs) "timestamp")
            (pyOr (jGet (.obj fs) "time")
              (pyOr (jGet (.obj fs) "t") (jGet (.obj fs) "date")))),
          pyOr (jGet (.obj fs) "open") (jGet (.obj fs) "o"),
          pyOr (jGet (.obj fs) "high") (jGet (.obj fs) "h"),
          pyOr (jGet (.obj fs) "low") (jGet (.obj fs) "l"),
          pyOr (jGet (.obj fs) "close") (jGet (.obj fs) "c"),
          pyOr (jGet (.obj fs) "volume") (jGet (.obj fs) "v")⟩) := by
  have hshape : ∀ (fmt : JVal → Option String) (c : JVal),
      (candleRow fmt c).isSome = (c.isObj || c.isArr) := by
    intro fmt c
    cases c <;> simp [candleRow, JVal.isObj, JVal.isArr]
  refine ⟨?_, hshape, ?_, ?_, ?_⟩
  · intro fmt data
    unfold _candles_to_rows
    exact foldr_rows_eq fmt _
  · intro fmt data
    unfold _candles_to_rows
    rw [foldr_rows_eq fmt _, length_filterMap_eq]
    congr 1
    exact List.filter_congr (fun c _ => hshape fmt c)
  · intro fmt xs
    rfl
  · intro fmt fs
    rfl

/-- Rows of `df.head(n)` are rows of `df`. -/
theorem mem_pyHead {r : String → String} {n : Int}
    {xs : List (String → String)} (h : r ∈ pyHead n xs) : r ∈ xs := by
  unfold pyHead at h
  split at h <;> exact List.take_subset _ _ h

/-- For a non-negative `n`, `df.head(n)` has at most `n` rows. -/
theorem length_pyHead {n : Int} (hn : 0 ≤ n) (xs : List (String → String)) :
    ((pyHead n xs).length : Int) ≤ n := by
  unfold pyHead
  rw [if_pos hn]
  have h1 : (xs.take n.toNat).length ≤ n.toNat := by
    simp [List.length_take]
  calc ((xs.take n.toNat).length : Int) ≤ (n.toNat : Int) := by
        exact_mod_cast h1
    _ = n := Int.toNat_of_nonneg hn

/-- A row surviving an optional exchange/segment filter step was there
before and, when the filter value is truthy, matches it
case-insensitively. -/
theorem optFilterTruthy_ok_mem {cols : List String} {colName : String}
    {v : Option String} {rows rows' : List (String → String)}
    {r : String → String}
    (h : optFilterTruthy cols colName v rows = .ok rows') (hr : r ∈ rows') :
    r ∈ rows ∧ (∀ e, v = some e → pyIsEmpty e = false →
      pyUpper (r colName) = pyUpper e) := by
  unfold optFilterTruthy at h
  split at h
  · simp only [Except.ok.injEq] at h
    subst h
    exact ⟨hr, fun e he => by cases he⟩
  · rename_i s
    split at h
    · rename_i hs
      simp only [Except.ok.injEq] at h
      subst h
      refine ⟨hr, fun e he hne => ?_⟩
      rw [Option.some.injEq] at he
      subst he
      rw [hs] at hne
      cases hne
    · split at h
      · simp only [Except.ok.injEq] at h
        subst h
        unfold filterByCol at hr
        have hm := List.mem_filter.mp hr
        refine ⟨hm.1, fun e he hne => ?_⟩
        rw [Option.some.injEq] at he
        subst he
        exact eq_of_beq hm.2
      · cases h

/-- C8 counterexample: with `--limit -1` (argparse accepts any int) on a
table of two matching rows, `_search_instruments` returns one row —
pandas' `head(-1)` drops the last row — which is not "at most limit
rows", since 1 is not at most -1. -/
theorem C8_counterexample :
    Except.map List.length (_search_instruments strContains
      ⟨["trading_symbol"], [fun _ => "xa", fun _ => "ya"]⟩ "a" none none
      (-1)) = .ok 1 ∧
    ¬ ((1 : Int) ≤ -1) :=
  ⟨rfl, by decide⟩

/-- C8 amended: for every per-cell contains predicate (standing for
pandas' regex-based `str.contains`; literal substring containment on
metacharacter-free queries), a query that is empty after stripping
yields zero rows (CLI) or the enter-a-term message (web); for every
non-negative limit at most `limit` rows come back (a negative limit
instead drops trailing rows, pandas `head` semantics); and every
returned row passes the case-insensitive exchange/segment filters and
is selected by that contains predicate, applied to the stripped
lower-cased query, on at least one searched column that exists in the
table. -/
theorem C8_amended_search :
    (∀ (pd : String → String → Bool) (t : Table) (query : String)
      (ex seg : Option String) (lim : Int),
      pyIsEmpty (pyStrip query) = true →
      _search_instruments pd t query ex seg lim = .ok []) ∧
    (∀ (pd : String → String → Bool) (t : Table) (query : String)
      (ex seg : Option String) (lim : Int)
      (res : List (String → String)),
      0 ≤ lim → _search_instruments pd t query ex seg lim = .ok res →
      (res.length : Int) ≤ lim) ∧
    (∀ (pd : String → String → Bool) (t : Table) (query : String)
      (ex seg : Option String) (lim : Int)
      (res : List (String → String)) (r : String → String),
      _search_instruments pd t query ex seg lim = .ok res → r ∈ res →
      ((∀ e, ex = some e → pyIsEmpty e = false →
          pyUpper (r "exchange") = pyUpper e) ∧
        (∀ s, seg = some s → pyIsEmpty s = false →
          pyUpper (r "segment") = pyUpper s) ∧
        rowHitsQuery pd (cliSearchCols.filter (fun c => t.cols.contains c))
          (pyLower (pyStrip query)) r = true)) ∧
    (∀ (pd : String → String → Bool) (tok : String) (df : Table)
      (query ex seg : String) (lim : Int),
      pyIsEmpty tok = false → pyIsEmpty (pyStrip query) = true →
      search_instruments pd tok df query ex seg lim =
        .msg "Enter a search term.") ∧
    (∀ (pd : String → String → Bool) (tok : String) (df : Table)
      (query ex seg : String) (lim : Int)
      (cols : List String) (rows : List (String → String)),
      0 ≤ lim →
      search_instruments pd tok df query ex seg lim = .table cols rows →
      (rows.length : Int) ≤ lim) ∧
    (∀ (pd : String → String → Bool) (tok : String) (df : Table)
      (query ex seg : String) (lim : Int)
      (cols : List String) (rows : List (String → String))
      (r : String → String),
      search_instruments pd tok df query ex seg lim = .table cols rows →
      r ∈ rows →
      ((pyIsEmpty ex = false → pyUpper (r "exchange") = pyUpper ex) ∧
        (pyIsEmpty seg = false → pyUpper (r "segment") = pyUpper seg) ∧
        rowHitsQuery pd
          (gradioSearchCols.filter (fun c => df.cols.contains c))
          (pyLower (pyStrip query)) r = true)) := by
  refine ⟨?_, ?_, ?_, ?_, ?_, ?_⟩
  · intro pd t query ex seg lim h
    simp [_search_instruments, pyIsEmpty_pyLower, h]
  · intro pd t query ex seg lim res hlim h
    simp only [_search_instruments] at h
    split at h
    · simp only [Except.ok.injEq] at h
      subst h
      simpa using hlim
    · split at h
      · cases h
      · split at h
        · cases h
        · split at h
          · simp only [Except.ok.injEq] at h
            subst h
            simpa using hlim
          · simp only [Except.ok.injEq] at h
            subst h
            exact length_pyHead hlim _
  · intro pd t query ex seg lim res r h hr
    simp only [_search_instruments] at h
    split at h
    · simp only [Except.ok.injEq] at h
      subst h
      cases hr
    · split at h
      · cases h
      · rename_i rows1 hex
        split at h
        · cases h
        · rename_i rows2 hseg
          split at h
          · simp only [Except.ok.injEq] at h
            subst h
            cases hr
          · simp only [Except.ok.injEq] at h
            subst h
            have hr2 := mem_pyHead hr
            have hm := List.mem_filter.mp hr2
            have hstep2 := optFilterTruthy_ok_mem hseg hm.1
            have hstep1 := optFilterTruthy_ok_mem hex hstep2.1
            exact ⟨hstep1.2, hstep2.2, hm.2⟩
  · intro pd tok df query ex seg lim htok h
    simp [search_instruments, htok, pyIsEmpty_pyLower, h]
  · intro pd tok df query ex seg lim cols rows hlim h
    simp only [search_instruments] at h
    split at h
    · cases h
    · split at h
      · cases h
      · split at h
        · cases h
        · split at h
          · cases h
          · split at h
            · cases h
            · split at h
              · cases h
              · simp only [SearchOut.table.injEq] at h
                rw [← h.2]
                exact length_pyHead hlim _
  · intro pd tok df query ex seg lim cols rows r h hr
    simp only [search_instruments] at h
    split at h
    · cases h
    · split at h
      · cases h
      · split at h
        · cases h
        · rename_i rows1 hex
          split at h
          · cases h
          · rename_i rows2 hseg
            split at h
            · cases h
            · split at h
              · cases h
              · simp only [SearchOut.table.injEq] at h
                rw [← h.2] at hr
                have hr2 := mem_pyHead hr
                have hm := List.mem_filter.mp hr2
                have hstep2 := optFilterTruthy_ok_mem hseg hm.1
                have hstep1 := optFilterTruthy_ok_mem hex hstep2.1
                exact ⟨hstep1.2 ex rfl, hstep2.2 seg rfl, hm.2⟩

/-- Witness for C8 amended at concrete inputs: a one-column table, query
"a", limit 2, with the literal-containment instantiation of the
contains predicate. -/
theorem C8_amended_search_witness :
    _search_instruments strContains ⟨["trading_symbol"], [fun _ => "xa"]⟩
      "  " none none 2 = .ok [] ∧
    (Except.map List.length (_search_instruments strContains
      ⟨["trading_symbol"], [fun _ => "xa", fun _ => "ya"]⟩ "a" none none
      2)) = .ok 2 := by
  constructor
  · exact C8_amended_search.1 strContains
      ⟨["trading_symbol"], [fun _ => "xa"]⟩ "  " none none 2 (by decide)
  · rfl

end Groww
